import Mathlib

/-!
Verification of the annotation / tactical-simulation core of the
football tracking-data tool.

Shallow embedding conventions:
* scene coordinates are exact rationals (`ℚ`);
* Python `float('nan')` coordinates are modelled as `Option ℚ` entries in
  tracking rows (`none` = NaN);
* Python dicts are modelled as total functions with an `Option`/default
  codomain;
* Python `int(x)` (truncation toward zero) is `pyInt`;
* comparisons of Euclidean distances `math.sqrt(dsq) < math.sqrt(dsq')`
  and `math.sqrt(dsq) <= maxd` are embedded sqrt-free through the exact
  equivalences `dsq < dsq'` and `0 ≤ maxd ∧ dsq ≤ maxd ^ 2`
  (both sides of each comparison are non-negative).
-/

namespace FootballTactics

/-- Python `int()` on a rational: truncation toward zero. -/
def pyInt (q : ℚ) : ℤ := if 0 ≤ q then ⌊q⌋ else ⌈q⌉

/-- A scene point `(x, y)` (QPointF). -/
structure Point where
  x : ℚ
  y : ℚ
  deriving DecidableEq, Repr

/-- Linear interpolation from `a` to `b` at fraction `t`
(the `start + t * (end - start)` pattern used throughout the source). -/
def lerp (a b : Point) (t : ℚ) : Point :=
  ⟨a.x + t * (b.x - a.x), a.y + t * (b.y - a.y)⟩

/-- Squared Euclidean distance between two points.  The source computes
`math.sqrt` of this value; all comparisons done on those square roots are
embedded on the squares (see module doc). -/
def distSq (a b : Point) : ℚ :=
  (a.x - b.x) ^ 2 + (a.y - b.y) ^ 2

/-- `math.sqrt dsq ≤ maxd` for `dsq ≥ 0`, expressed sqrt-free. -/
def sqrtLe (dsq maxd : ℚ) : Prop := 0 ≤ maxd ∧ dsq ≤ maxd ^ 2

instance (dsq maxd : ℚ) : Decidable (sqrtLe dsq maxd) := by
  unfold sqrtLe; infer_instance

/-- `FPS` from `config.py`. -/
def FPS : ℚ := 25

/-- `PLAYER_OUTER_RADIUS_BASE` from `config.py`. -/
def PLAYER_OUTER_RADIUS_BASE : ℚ := 16 / 10

/-- A `tactical_arrow` dict from `TacticalSimulationManager.associate_arrow_with_player`.
The Python dict key `'receiver_id'` is present iff the field is `some`. -/
structure TacticalArrow where
  arrow_id : ℕ
  player_id : String
  action_type : String
  start_pos : Point
  end_pos : Point
  length : ℚ
  associated_frame : ℤ
  receiver_id : Option String := none
  deriving DecidableEq, Repr

/-- An entry of `ball_possession_chain`. -/
structure PossessionLink where
  from_player : String
  to_player : String
  arrow_id : ℕ
  deriving DecidableEq, Repr

/-- The `max_speeds` dict lookup in `_calculate_player_position_with_speed`:
`{'run': 8.0, 'dribble': 4.0, 'pass': 0.0}`; `none` = key absent. -/
def maxSpeeds (action : String) : Option ℚ :=
  if action = "run" then some 8
  else if action = "dribble" then some 4
  else if action = "pass" then some 0
  else none

/-- `TacticalSimulationManager._calculate_player_position_with_speed`
(tactical_simulation.py lines 253-311). -/
def calcPlayerPositionWithSpeed (ta : TacticalArrow) (progress interval_seconds : ℚ) :
    Point :=
  let required_speed := ta.length / interval_seconds
  let actual_progress :=
    match maxSpeeds ta.action_type with
    | some max_allowed_speed =>
        if 0 < max_allowed_speed then
          if max_allowed_speed < required_speed then
            min (max_allowed_speed * interval_seconds * progress / ta.length) 1
          else progress
        else progress
    | none => progress
  lerp ta.start_pos ta.end_pos actual_progress

/-- External tracking-data collaborator: `get_frame_data_func` and the
`xy_objects` structure, as consumed by the simulation manager.
Row lookups return `none` where Python would raise `KeyError`/`IndexError`
(which the source catches); a row is a list of coordinates where `none`
models a NaN float. -/
structure TrackingData where
  getFrameData : ℤ → String × ℤ
  teamRow : String → String → ℤ → Option (List (Option ℚ))
  ballRow : String → ℤ → Option (List (Option ℚ))

/-- State of `TacticalSimulationManager`.  Python dicts keyed by arrow id
(`player_associations`, `pass_receivers`) are total functions into `Option`;
`simulated_player_positions` maps a player id to its sample list (a missing
key and an empty list are observationally identical in the source). -/
structure SimState where
  home_ids : List String
  away_ids : List String
  tactical_arrows : List TacticalArrow
  ball_possession_chain : List PossessionLink
  player_associations : ℕ → Option String
  pass_receivers : ℕ → Option String
  simulated_player_positions : String → List (ℚ × ℚ × ℤ)
  simulated_ball_positions : List (ℚ × ℚ × ℤ)

/-- The reverse walk of `set_pass_receiver`, applied to the REVERSED arrow
list: return the first pass lacking a receiver together with the updated
(reversed) list. -/
def setReceiverRev (r : String) :
    List TacticalArrow → Option (TacticalArrow × List TacticalArrow)
  | [] => none
  | ta :: rest =>
      if ta.action_type = "pass" ∧ ta.receiver_id = none then
        some (ta, { ta with receiver_id := some r } :: rest)
      else
        match setReceiverRev r rest with
        | some (hit, rest') => some (hit, ta :: rest')
        | none => none

/-- `TacticalSimulationManager.set_pass_receiver`
(tactical_simulation.py lines 89-119). -/
def set_pass_receiver (st : SimState) (receiver_player_id : String) :
    Bool × SimState :=
  match setReceiverRev receiver_player_id st.tactical_arrows.reverse with
  | none => (false, st)
  | some (ta, rev') =>
      (true,
        { st with
          tactical_arrows := rev'.reverse
          pass_receivers := fun k =>
            if k = ta.arrow_id then some receiver_player_id else st.pass_receivers k
          ball_possession_chain := st.ball_possession_chain ++
            [⟨ta.player_id, receiver_player_id, ta.arrow_id⟩] })

/-- `TacticalSimulationManager.remove_arrow_association`
(tactical_simulation.py lines 547-572); the argument is the Python
`id(arrow)` identity key. -/
def remove_arrow_association (st : SimState) (arrow_id : ℕ) : SimState :=
  { st with
    tactical_arrows := st.tactical_arrows.filter (fun ta => ta.arrow_id ≠ arrow_id)
    player_associations := fun k =>
      if k = arrow_id then none else st.player_associations k
    pass_receivers := fun k =>
      if k = arrow_id then none else st.pass_receivers k
    ball_possession_chain :=
      st.ball_possession_chain.filter (fun link => link.arrow_id ≠ arrow_id) }

/-- `TacticalSimulationManager._get_real_player_position`
(tactical_simulation.py lines 412-437): returns `(0, 0)` whenever the
player, the row, or either coordinate is unavailable (NaN). -/
def getRealPlayerPosition (st : SimState) (td : TrackingData)
    (player_id : String) (frame : ℤ) : Point :=
  let hi := td.getFrameData frame
  let side := if player_id ∈ st.home_ids then "Home" else "Away"
  let ids := if side = "Home" then st.home_ids else st.away_ids
  match ids.indexOf? player_id with
  | none => ⟨0, 0⟩
  | some player_index =>
      match td.teamRow hi.1 side hi.2 with
      | none => ⟨0, 0⟩
      | some xy =>
          if 2 * player_index + 1 < xy.length then
            match xy.get? (2 * player_index), xy.get? (2 * player_index + 1) with
            | some (some x), some (some y) => ⟨x, y⟩
            | _, _ => ⟨0, 0⟩
          else ⟨0, 0⟩

/-- One iteration of the running-minimum loop of `find_player_at_position`:
`best` is `none` while `min_distance` is still `inf`, otherwise
`some (squared distance, player)`.  The source compares square roots; the
comparisons are embedded on the squares (see module doc). -/
def findPlayerStep (click : Point) (pos : String → Point) (maxd : ℚ)
    (best : Option (ℚ × String)) (player_id : String) : Option (ℚ × String) :=
  let d := distSq click (pos player_id)
  match best with
  | none => if sqrtLe d maxd then some (d, player_id) else none
  | some best' =>
      if d < best'.1 ∧ sqrtLe d maxd then some (d, player_id) else some best'

/-- `TacticalSimulationManager.find_player_at_position`
(tactical_simulation.py lines 464-495): iteration order is Home ids then
Away ids. -/
def find_player_at_position (st : SimState) (td : TrackingData) (click_pos : Point)
    (current_frame : ℤ) (max_distance : ℚ) : Option String :=
  ((st.home_ids ++ st.away_ids).foldl
      (findPlayerStep click_pos
        (fun p => getRealPlayerPosition st td p current_frame) max_distance)
      none).map Prod.snd

/-- One iteration of `_find_closest_player_to_ball` (no distance threshold). -/
def closestPlayerStep (ball : Point) (pos : String → Point)
    (best : Option (ℚ × String)) (player_id : String) : Option (ℚ × String) :=
  let d := distSq ball (pos player_id)
  match best with
  | none => some (d, player_id)
  | some best' => if d < best'.1 then some (d, player_id) else some best'

/-- `TacticalSimulationManager._find_closest_player_to_ball`
(tactical_simulation.py lines 439-462). -/
def findClosestPlayerToBall (st : SimState) (td : TrackingData)
    (ball_pos : Point) (frame : ℤ) : Option String :=
  ((st.home_ids ++ st.away_ids).foldl
      (closestPlayerStep ball_pos
        (fun p => getRealPlayerPosition st td p frame))
      none).map Prod.snd

/-- Python sequence indexing `l[i]` (negative indices wrap from the end);
an out-of-range access would raise in Python and is unreachable in the
modelled loops, so it falls back to `dflt`. -/
def pyGet {α : Type} (l : List α) (i : ℤ) (dflt : α) : α :=
  if 0 ≤ i then l.getD i.toNat dflt
  else l.getD (l.length - i.natAbs) dflt

/-- `TacticalSimulationManager._get_player_position_at_progress`
(tactical_simulation.py lines 390-410). -/
def getPlayerPositionAtProgress (st : SimState) (td : TrackingData)
    (player_id : String) (progress interval_seconds : ℚ) (current_frame : ℤ) :
    Point :=
  let positions := st.simulated_player_positions player_id
  if positions ≠ [] then
    let target_index :=
      min (pyInt (progress * ((positions.length : ℤ) - 1 : ℤ)))
        ((positions.length : ℤ) - 1)
    let latest_pos := pyGet positions target_index (0, 0, 0)
    ⟨latest_pos.1, latest_pos.2.1⟩
  else
    let frame_to_check := current_frame + pyInt (progress * interval_seconds * FPS)
    getRealPlayerPosition st td player_id frame_to_check

/-- `TacticalSimulationManager._calculate_ball_position_with_speed`
(tactical_simulation.py lines 313-388). -/
def calcBallPositionWithSpeed (st : SimState) (td : TrackingData)
    (initial_ball_pos : Point) (initial_holder : String)
    (passes : List TacticalArrow) (progress interval_seconds : ℚ)
    (current_frame : ℤ) : Point :=
  match passes with
  | [] =>
      let positions := st.simulated_player_positions initial_holder
      match positions.getLast? with
      | some latest_pos => ⟨latest_pos.1, latest_pos.2.1⟩
      | none => initial_ball_pos
  | first_pass :: _ =>
      match first_pass.receiver_id with
      | some receiver_id =>
          let pass_length := first_pass.length
          let pass_speed := min 25 (max 15 (pass_length / 2))
          let pass_duration := pass_length / pass_speed
          let pass_duration_ratio := min (pass_duration / interval_seconds) (8 / 10)
          if progress ≤ pass_duration_ratio then
            let pass_progress := progress / pass_duration_ratio
            let passer_pos :=
              calcPlayerPositionWithSpeed first_pass progress interval_seconds
            let receiver_pos := getPlayerPositionAtProgress st td receiver_id
              progress interval_seconds current_frame
            lerp passer_pos receiver_pos pass_progress
          else
            getPlayerPositionAtProgress st td receiver_id
              progress interval_seconds current_frame
      | none => initial_ball_pos

/-- Initial ball position in `calculate_simulated_trajectories`
(tactical_simulation.py lines 205-214): `none` when the row is missing,
shorter than 2, or the x-coordinate is NaN.  The source tests NaN only on
`ball_xy[0]`; a NaN y-coordinate would make every distance in
`_find_closest_player_to_ball` NaN so no holder is found and no ball output
is produced, which coincides with returning `none` here. -/
def ballStartPos (td : TrackingData) (current_frame : ℤ) : Option Point :=
  let hi := td.getFrameData current_frame
  match td.ballRow hi.1 hi.2 with
  | none => none
  | some ball_xy =>
      if 2 ≤ ball_xy.length then
        match ball_xy.get? 0, ball_xy.get? 1 with
        | some (some x), some (some y) => some ⟨x, y⟩
        | _, _ => none
      else none

/-- The inner `for tactical_arrow in self.tactical_arrows` loop of the
per-frame body (tactical_simulation.py lines 226-239): append one sample
per tactical arrow to its player's list. -/
def processArrowsOneFrame (ts : List TacticalArrow) (progress interval_seconds : ℚ)
    (current_sim_frame : ℤ) (pm : String → List (ℚ × ℚ × ℤ)) :
    String → List (ℚ × ℚ × ℤ) :=
  ts.foldl
    (fun pm ta =>
      let player_pos := calcPlayerPositionWithSpeed ta progress interval_seconds
      fun q =>
        if q = ta.player_id then
          pm q ++ [(player_pos.x, player_pos.y, current_sim_frame)]
        else pm q)
    pm

/-- One iteration of the `for frame_offset in range(total_frames)` loop of
`calculate_simulated_trajectories` (tactical_simulation.py lines 221-249). -/
def simFrameBody (td : TrackingData) (passes : List TacticalArrow)
    (ballInfo : Option (Point × String)) (interval_seconds : ℚ)
    (current_frame : ℤ) (total_frames : ℤ) (st : SimState)
    (frame_offset : ℕ) : SimState :=
  let current_sim_frame := current_frame + frame_offset
  let progress := (frame_offset : ℚ) / ((max 1 (total_frames - 1) : ℤ) : ℚ)
  let st1 := { st with
    simulated_player_positions :=
      processArrowsOneFrame st.tactical_arrows progress interval_seconds
        current_sim_frame st.simulated_player_positions }
  match ballInfo with
  | some bi =>
      let ball_pos := calcBallPositionWithSpeed st1 td bi.1 bi.2 passes
        progress interval_seconds current_frame
      { st1 with simulated_ball_positions :=
          st1.simulated_ball_positions ++
            [(ball_pos.x, ball_pos.y, current_sim_frame)] }
  | none => st1

/-- The whole frame loop of `calculate_simulated_trajectories`. -/
def simFrameLoop (td : TrackingData) (passes : List TacticalArrow)
    (ballInfo : Option (Point × String)) (interval_seconds : ℚ)
    (current_frame : ℤ) (total_frames : ℤ) (st : SimState) : SimState :=
  (List.range total_frames.toNat).foldl
    (simFrameBody td passes ballInfo interval_seconds current_frame total_frames)
    st

/-- `TacticalSimulationManager.calculate_simulated_trajectories`
(tactical_simulation.py lines 179-249). -/
def calculate_simulated_trajectories (st : SimState) (td : TrackingData)
    (interval_seconds : ℚ) (current_frame : ℤ) : SimState :=
  let st := { st with
    simulated_player_positions := fun _ => []
    simulated_ball_positions := [] }
  if st.tactical_arrows = [] then st
  else
    let total_frames := pyInt (interval_seconds * FPS)
    let ball_current_pos := ballStartPos td current_frame
    let ball_holder :=
      match ball_current_pos with
      | some bp => findClosestPlayerToBall st td bp current_frame
      | none => none
    let ballInfo :=
      match ball_current_pos, ball_holder with
      | some bp, some h => some (bp, h)
      | _, _ => none
    let passes := st.tactical_arrows.filter (fun ta => ta.action_type = "pass")
    simFrameLoop td passes ballInfo interval_seconds current_frame total_frames st

/-! ### Annotation layer (annotation.py) -/

/-- The persistent state of a `CustomArrowItem` relevant to geometry. -/
structure ArrowItem where
  arrow_points : List Point
  arrow_color : String
  arrow_width : ℚ
  arrow_style : String
  deriving DecidableEq, Repr

/-- State of `ArrowAnnotationManager`. -/
structure ArrowManagerState where
  arrows : List ArrowItem
  arrow_points : List Point
  arrow_color : String
  arrow_width : ℚ
  arrow_style : String
  arrow_curved : Bool

/-- `ArrowAnnotationManager.draw_arrow` with `preview=False`
(annotation.py lines 245-265): `none` when fewer than 2 points. -/
def draw_arrow (st : ArrowManagerState) (pts : List Point) : Option ArrowItem :=
  if pts.length < 2 then none
  else some ⟨pts, st.arrow_color, st.arrow_width, st.arrow_style⟩

/-- `ArrowAnnotationManager.finish_arrow` (annotation.py lines 193-204). -/
def finish_arrow (st : ArrowManagerState) : Option ArrowItem × ArrowManagerState :=
  if st.arrow_points.length < 2 then
    (none, { st with arrow_points := [] })
  else
    match draw_arrow st st.arrow_points with
    | some arrow_item =>
        (some arrow_item,
          { st with arrows := st.arrows ++ [arrow_item], arrow_points := [] })
    | none => (none, { st with arrow_points := [] })

/-- `ArrowAnnotationManager.add_point` (annotation.py lines 125-130). -/
def arrowAddPoint (st : ArrowManagerState) (pos : Point) : ArrowManagerState :=
  if ¬st.arrow_curved then
    if st.arrow_points.length < 2 then
      { st with arrow_points := st.arrow_points ++ [pos] }
    else st
  else { st with arrow_points := st.arrow_points ++ [pos] }

/-- An axis-aligned rectangle `(x, y, w, h)` (QRectF). -/
structure Rect where
  x : ℚ
  y : ℚ
  w : ℚ
  h : ℚ
  deriving DecidableEq, Repr

/-- `QRectF.center()`. -/
def Rect.center (r : Rect) : Point := ⟨r.x + r.w / 2, r.y + r.h / 2⟩

/-- `QRectF(p1, p2).normalized()`: the axis-aligned rectangle spanned by two
corner points, with non-negative width and height. -/
def normRectFromPoints (p1 p2 : Point) : Rect :=
  ⟨min p1.x p2.x, min p1.y p2.y, |p2.x - p1.x|, |p2.y - p1.y|⟩

/-- Python `str.lower()` (ASCII), as a structural map over the characters
(`String.toLower` itself is defined by well-founded recursion, which the
kernel cannot evaluate). -/
def pyLower (s : String) : String := ⟨s.data.map Char.toLower⟩

/-- The style normalisation shared by `RectangleZoneManager.set_style`
(annotation.py lines 876-882) and `RectangleZoneItem.set_style`
(lines 1254-1259):
`"dashed" if str(style).lower() in ("dash", "dashed", "--") else "solid"`. -/
def normalizeZoneStyle (style : String) : String :=
  if pyLower style = "dash" ∨ pyLower style = "dashed" ∨ pyLower style = "--"
  then "dashed" else "solid"

/-- The persistent state of a `RectangleZoneItem`. -/
structure RectZoneItem where
  rect : Rect
  zone_color : String
  zone_width : ℚ
  zone_style : String
  zone_fill_alpha : ℚ
  rotation_angle : ℚ
  deriving DecidableEq, Repr

/-- `RectangleZoneItem.set_style` (annotation.py lines 1254-1259). -/
def RectZoneItem.setStyle (z : RectZoneItem) (style : String) : RectZoneItem :=
  { z with zone_style := normalizeZoneStyle style }

/-- `RectangleZoneItem.set_rotation` (annotation.py lines 1261-1278): stores
the angle and rebuilds the display transform; `rect` is untouched. -/
def RectZoneItem.setRotation (z : RectZoneItem) (angle : ℚ) : RectZoneItem :=
  { z with rotation_angle := angle }

/-- Axis-aligned bounding box of the four corners of `r` rotated around the
center of `r` — the `QTransform.mapRect` of the rotate-about-center
transform.  `cosA`/`sinA` stand for the cosine and sine of
`rotation_angle` degrees as computed by the rendering library; the claims
only exercise branches where they are exact or cancel out. -/
def rotatedAABB (r : Rect) (cosA sinA : ℚ) : Rect :=
  let cx := r.x + r.w / 2
  let cy := r.y + r.h / 2
  let rot : Point → Point := fun p =>
    ⟨cx + cosA * (p.x - cx) - sinA * (p.y - cy),
     cy + sinA * (p.x - cx) + cosA * (p.y - cy)⟩
  let a := rot ⟨r.x, r.y⟩
  let b := rot ⟨r.x + r.w, r.y⟩
  let c := rot ⟨r.x, r.y + r.h⟩
  let d := rot ⟨r.x + r.w, r.y + r.h⟩
  let minX := min (min a.x b.x) (min c.x d.x)
  let maxX := max (max a.x b.x) (max c.x d.x)
  let minY := min (min a.y b.y) (min c.y d.y)
  let maxY := max (max a.y b.y) (max c.y d.y)
  ⟨minX, minY, maxX - minX, maxY - minY⟩

/-- `RectangleZoneItem._update_selection_rect` (annotation.py lines
1200-1218): the selection bounds equal the zone rect itself at rotation 0,
and the true rotated AABB otherwise. -/
def selectionAABB (z : RectZoneItem) (cosA sinA : ℚ) : Rect :=
  if z.rotation_angle ≠ 0 then rotatedAABB z.rect cosA sinA else z.rect

/-- Resize-session state shared by `start_resize`/`update_resize`/`end_resize`
on `RectangleZoneItem`. -/
structure ZoneResizeSession where
  is_resizing : Bool
  original_rect : Option Rect

/-- Corner of an axis-aligned bounds rectangle by name (the `corners` dict);
only called under the valid-corner guard. -/
def boundsCorner (r : Rect) : String → Point
  | "top_left" => ⟨r.x, r.y⟩
  | "top_right" => ⟨r.x + r.w, r.y⟩
  | "bottom_left" => ⟨r.x, r.y + r.h⟩
  | "bottom_right" => ⟨r.x + r.w, r.y + r.h⟩
  | _ => ⟨r.x, r.y⟩

/-- The `opposite` dict of `update_resize`. -/
def oppositeCorner : String → String
  | "top_left" => "bottom_right"
  | "bottom_right" => "top_left"
  | "top_right" => "bottom_left"
  | "bottom_left" => "top_right"
  | _ => ""

/-- `RectangleZoneItem.update_resize` (annotation.py: the effective — last —
definition at lines 1492-1556; the shadowed first definition at lines
1330-1404 computes the same formulas).  `new_corner_local` is the dragged
scene position already shifted by the group position; `c`/`s` stand for
`abs(cos(radians(rotation_angle)))` / `abs(sin(...))` as the source
computes them (exact at the rotations exercised by the claims). -/
def zoneUpdateResize (z : RectZoneItem) (sess : ZoneResizeSession)
    (corner_type : String) (new_corner_local : Point) (c s : ℚ) : RectZoneItem :=
  if ¬sess.is_resizing then z else
  match sess.original_rect with
  | none => z
  | some orig_rect =>
      let bw_orig := orig_rect.w * c + orig_rect.h * s
      let bh_orig := orig_rect.w * s + orig_rect.h * c
      let center_orig := orig_rect.center
      let bounds_orig : Rect :=
        ⟨center_orig.x - bw_orig / 2, center_orig.y - bh_orig / 2, bw_orig, bh_orig⟩
      if corner_type ∉ ["top_left", "top_right", "bottom_left", "bottom_right"]
      then z
      else
        let fixed := boundsCorner bounds_orig (oppositeCorner corner_type)
        let new_bounds := normRectFromPoints new_corner_local fixed
        let bw := new_bounds.w
        let bh := new_bounds.h
        let det := c * c - s * s
        let wh : ℚ × ℚ :=
          if |det| < 1 / 1000000 then
            let scale_w := bw / max bw_orig (1 / 1000000)
            let scale_h := bh / max bh_orig (1 / 1000000)
            (max 1 (orig_rect.w * scale_w), max 1 (orig_rect.h * scale_h))
          else
            (max 1 ((bw * c - bh * s) / det), max 1 ((bh * c - bw * s) / det))
        let center_new := new_bounds.center
        { z with rect :=
            ⟨center_new.x - wh.1 / 2, center_new.y - wh.2 / 2, wh.1, wh.2⟩ }

/-- Resize-session state of `CustomArrowItem`; `original_points = []` plays
the role of the Python-falsy `None`/empty list. -/
structure ArrowResizeSession where
  is_resizing : Bool
  resize_start_pos : Point
  original_points : List Point

/-- Bounding box `(min_x, min_y, width, height)` of the session's original
points (the `orig_*` values of `CustomArrowItem.update_resize`). -/
def arrowOrigBounds (sess : ArrowResizeSession) : Rect :=
  let xs := sess.original_points.map Point.x
  let ys := sess.original_points.map Point.y
  let orig_min_x := xs.foldl min (xs.headD 0)
  let orig_max_x := xs.foldl max (xs.headD 0)
  let orig_min_y := ys.foldl min (ys.headD 0)
  let orig_max_y := ys.foldl max (ys.headD 0)
  ⟨orig_min_x, orig_min_y, orig_max_x - orig_min_x, orig_max_y - orig_min_y⟩

/-- The prospective bounds `(new_min_x, new_min_y, new_width, new_height)`
computed by `CustomArrowItem.update_resize` before the degenerate-dimension
guard. -/
def arrowResizeSpan (sess : ArrowResizeSession) (corner_type : String)
    (scene_pos : Point) : Rect :=
  let delta : Point := ⟨scene_pos.x - sess.resize_start_pos.x,
                        scene_pos.y - sess.resize_start_pos.y⟩
  let ob := arrowOrigBounds sess
  let new_min_x := if corner_type = "top_left" ∨ corner_type = "bottom_left"
    then ob.x + delta.x else ob.x
  let new_max_x := if corner_type = "top_right" ∨ corner_type = "bottom_right"
    then ob.x + ob.w + delta.x else ob.x + ob.w
  let new_min_y := if corner_type = "top_left" ∨ corner_type = "top_right"
    then ob.y + delta.y else ob.y
  let new_max_y := if corner_type = "bottom_left" ∨ corner_type = "bottom_right"
    then ob.y + ob.h + delta.y else ob.y + ob.h
  ⟨new_min_x, new_min_y, new_max_x - new_min_x, new_max_y - new_min_y⟩

/-- `CustomArrowItem.update_resize` (annotation.py lines 412-477), returning
the updated `arrow_points`.  `group_pos` is the group's scene position. -/
def arrowUpdateResize (arrow_points : List Point) (group_pos : Point)
    (sess : ArrowResizeSession) (corner_type : String) (scene_pos : Point) :
    List Point :=
  if ¬sess.is_resizing ∨ sess.original_points = [] then arrow_points else
  let ob := arrowOrigBounds sess
  let span := arrowResizeSpan sess corner_type scene_pos
  if span.w ≤ 1 ∨ span.h ≤ 1 then arrow_points
  else
    let mapped := sess.original_points.map (fun p =>
      let norm_x := if 0 < ob.w then (p.x - ob.x) / ob.w else 0
      let norm_y := if 0 < ob.h then (p.y - ob.y) / ob.h else 0
      Point.mk (span.x + norm_x * span.w + group_pos.x)
        (span.y + norm_y * span.h + group_pos.y))
    mapped ++ arrow_points.drop sess.original_points.length

/-- Replace the element at index `i` (identity elsewhere) — used to model an
in-place mutation of the list element the manager's `selected_zone`
reference points at. -/
def listModify {α : Type} : List α → ℕ → (α → α) → List α
  | [], _, _ => []
  | a :: l, 0, f => f a :: l
  | a :: l, i + 1, f => a :: listModify l i f

/-- State of `RectangleZoneManager` (annotation.py lines 824-954).  The
Python `selected_zone` object reference is modelled as an index into
`zones`. -/
structure RectZoneManagerState where
  zones : List RectZoneItem
  zone_points : List Point
  zone_color : String
  zone_width : ℚ
  zone_style : String
  zone_fill_alpha : ℚ
  selected_zone : Option ℕ
  current_mode : String

/-- `RectangleZoneManager.finish_zone` (annotation.py lines 920-935). -/
def finish_zone (st : RectZoneManagerState) : Bool × RectZoneManagerState :=
  if st.zone_points.length < 2 then (false, st)
  else
    match st.zone_points with
    | p0 :: p1 :: _ =>
        let zone : RectZoneItem :=
          ⟨normRectFromPoints p0 p1, st.zone_color, st.zone_width,
            st.zone_style, st.zone_fill_alpha, 0⟩
        (true, { st with zones := st.zones ++ [zone], zone_points := [] })
    | _ => (false, st)

/-- `RectangleZoneManager.add_point` (annotation.py lines 900-903). -/
def zoneAddPoint (st : RectZoneManagerState) (pos : Point) : RectZoneManagerState :=
  if st.zone_points.length < 2 then
    { st with zone_points := st.zone_points ++ [pos] }
  else st

/-- `RectangleZoneManager.set_style` (annotation.py lines 876-882). -/
def zoneManagerSetStyle (st : RectZoneManagerState) (style : String) :
    RectZoneManagerState :=
  let normalized := normalizeZoneStyle style
  match st.selected_zone with
  | some i =>
      { st with zones := listModify st.zones i (fun z => z.setStyle normalized) }
  | none => { st with zone_style := normalized }

/-- `RectangleZoneManager.set_color` (annotation.py lines 862-867). -/
def zoneManagerSetColor (st : RectZoneManagerState) (color : String) :
    RectZoneManagerState :=
  match st.selected_zone with
  | some i =>
      { st with zones := listModify st.zones i (fun z => { z with zone_color := color }) }
  | none => { st with zone_color := color }

/-- `RectangleZoneManager.set_width` (annotation.py lines 869-874). -/
def zoneManagerSetWidth (st : RectZoneManagerState) (width : ℚ) :
    RectZoneManagerState :=
  match st.selected_zone with
  | some i =>
      { st with zones := listModify st.zones i (fun z => { z with zone_width := width }) }
  | none => { st with zone_width := width }

/-- `RectangleZoneManager.set_fill_alpha` (annotation.py lines 884-889). -/
def zoneManagerSetFillAlpha (st : RectZoneManagerState) (alpha : ℚ) :
    RectZoneManagerState :=
  match st.selected_zone with
  | some i =>
      { st with zones := listModify st.zones i (fun z => { z with zone_fill_alpha := alpha }) }
  | none => { st with zone_fill_alpha := alpha }

/-- `RectangleZoneManager.set_mode` (annotation.py lines 839-844). -/
def zoneManagerSetMode (st : RectZoneManagerState) (mode : String) :
    RectZoneManagerState :=
  { st with current_mode := mode, zone_points := [], selected_zone := none }

/-- `RectangleZoneManager.cancel_zone` (annotation.py lines 937-940). -/
def zoneManagerCancel (st : RectZoneManagerState) : RectZoneManagerState :=
  { st with zone_points := [] }

/-- `RectangleZoneManager.select_zone` (annotation.py lines 855-860). -/
def zoneManagerSelect (st : RectZoneManagerState) (i : Option ℕ) :
    RectZoneManagerState :=
  { st with selected_zone := i }

/-- `RectangleZoneManager.delete_selected_zone` (annotation.py lines 942-954). -/
def zoneManagerDeleteSelected (st : RectZoneManagerState) : RectZoneManagerState :=
  match st.selected_zone with
  | some i => { st with zones := st.zones.eraseIdx i, selected_zone := none }
  | none => { st with selected_zone := none }

/-- `RectangleZoneItem.set_rotation` applied through the manager-owned list
(the zone-properties dialog calls it on the selected zone). -/
def zoneManagerSetRotation (st : RectZoneManagerState) (angle : ℚ) :
    RectZoneManagerState :=
  match st.selected_zone with
  | some i =>
      { st with zones := listModify st.zones i (fun z => z.setRotation angle) }
  | none => st

/-- The operations a caller can route through a `RectangleZoneManager` (and
its zones): the mutation surface relevant to the style invariant. -/
inductive RectZoneOp : Type
  | setMode (mode : String)
  | addPoint (pos : Point)
  | finishZone
  | cancelZone
  | setStyle (style : String)
  | setColor (color : String)
  | setWidth (w : ℚ)
  | setFillAlpha (a : ℚ)
  | setRotationOp (angle : ℚ)
  | selectZone (i : Option ℕ)
  | deleteSelected

/-- Apply one manager operation. -/
def applyRectZoneOp (st : RectZoneManagerState) : RectZoneOp → RectZoneManagerState
  | RectZoneOp.setMode m => zoneManagerSetMode st m
  | RectZoneOp.addPoint p => zoneAddPoint st p
  | RectZoneOp.finishZone => (finish_zone st).2
  | RectZoneOp.cancelZone => zoneManagerCancel st
  | RectZoneOp.setStyle s => zoneManagerSetStyle st s
  | RectZoneOp.setColor c => zoneManagerSetColor st c
  | RectZoneOp.setWidth w => zoneManagerSetWidth st w
  | RectZoneOp.setFillAlpha a => zoneManagerSetFillAlpha st a
  | RectZoneOp.setRotationOp a => zoneManagerSetRotation st a
  | RectZoneOp.selectZone i => zoneManagerSelect st i
  | RectZoneOp.deleteSelected => zoneManagerDeleteSelected st

/-- Apply a sequence of manager operations, oldest first. -/
def applyRectZoneOps (st : RectZoneManagerState) (ops : List RectZoneOp) :
    RectZoneManagerState :=
  ops.foldl applyRectZoneOp st

/-- The freshly constructed `RectangleZoneManager` (annotation.py lines
827-837): default style `"solid"`, no zones, no buffered points. -/
def initialRectZoneManager : RectZoneManagerState :=
  { zones := []
    zone_points := []
    zone_color := "#000000"
    zone_width := 1
    zone_style := "solid"
    zone_fill_alpha := 0
    selected_zone := none
    current_mode := "select" }

/-! ### Theorems -/

/-- C1: For every TacticalArrow of action type `run` or `dribble`, every
simulation interval `interval_seconds > 0` and every `progress ∈ [0, 1]`,
`_calculate_player_position_with_speed` returns the point of the straight
segment from `start_pos` to `end_pos` at fraction `progress` when
`length / interval_seconds` does not exceed the per-action cap
(run: 8 m/s, dribble: 4 m/s), and at fraction
`min 1 (maxSpeed * interval_seconds * progress / length)` when it does;
a pass arrow is uncapped (fraction = progress). -/
theorem player_position_speed_cap (ta : TacticalArrow)
    (progress interval_seconds : ℚ) (hI : 0 < interval_seconds)
    (h0 : 0 ≤ progress) (h1 : progress ≤ 1) :
    (ta.action_type = "run" →
      (ta.length / interval_seconds ≤ 8 →
        calcPlayerPositionWithSpeed ta progress interval_seconds =
          lerp ta.start_pos ta.end_pos progress) ∧
      (8 < ta.length / interval_seconds →
        calcPlayerPositionWithSpeed ta progress interval_seconds =
          lerp ta.start_pos ta.end_pos
            (min 1 (8 * interval_seconds * progress / ta.length)))) ∧
    (ta.action_type = "dribble" →
      (ta.length / interval_seconds ≤ 4 →
        calcPlayerPositionWithSpeed ta progress interval_seconds =
          lerp ta.start_pos ta.end_pos progress) ∧
      (4 < ta.length / interval_seconds →
        calcPlayerPositionWithSpeed ta progress interval_seconds =
          lerp ta.start_pos ta.end_pos
            (min 1 (4 * interval_seconds * progress / ta.length)))) ∧
    (ta.action_type = "pass" →
      calcPlayerPositionWithSpeed ta progress interval_seconds =
        lerp ta.start_pos ta.end_pos progress) := by
  unfold calcPlayerPositionWithSpeed maxSpeeds
  refine ⟨fun hrun => ⟨fun hle => ?_, fun hgt => ?_⟩,
    fun hdr => ⟨fun hle => ?_, fun hgt => ?_⟩, fun hp => ?_⟩
  · simp only [hrun]; norm_num
    rw [if_neg (not_lt.mpr hle)]
  · simp only [hrun]; norm_num
    rw [if_pos hgt, min_comm]
  · simp only [hdr]
    rw [if_neg (show ¬("dribble" = "run") from by decide)]
    norm_num
    rw [if_neg (not_lt.mpr hle)]
  · simp only [hdr]
    rw [if_neg (show ¬("dribble" = "run") from by decide)]
    norm_num
    rw [if_pos hgt, min_comm]
  · simp only [hp]
    rw [if_neg (show ¬("pass" = "run") from by decide),
      if_neg (show ¬("pass" = "dribble") from by decide)]
    norm_num

/-- A concrete "run" arrow of length 100 used to witness C1. -/
def runArrow100 : TacticalArrow :=
  { arrow_id := 1, player_id := "H1", action_type := "run",
    start_pos := ⟨0, 0⟩, end_pos := ⟨100, 0⟩, length := 100,
    associated_frame := 0 }

/-- C1 witness: a run arrow of length 100 over a 5 s interval (required
speed 20 m/s > 8 m/s cap) ends, at progress 1, at fraction 0.4 of the
segment — the point (40, 0), strictly before the endpoint (100, 0). -/
theorem player_position_speed_cap_witness :
    (0 : ℚ) < 5 ∧ (0 : ℚ) ≤ 1 ∧ (1 : ℚ) ≤ 1 ∧
    (8 : ℚ) < runArrow100.length / 5 ∧
    calcPlayerPositionWithSpeed runArrow100 1 5 =
      lerp runArrow100.start_pos runArrow100.end_pos
        (min 1 (8 * 5 * 1 / runArrow100.length)) ∧
    calcPlayerPositionWithSpeed runArrow100 1 5 = ⟨40, 0⟩ ∧
    (⟨40, 0⟩ : Point) ≠ runArrow100.end_pos := by
  have h := ((player_position_speed_cap runArrow100 1 5 (by norm_num)
    (by norm_num) (le_refl 1)).1 rfl).2 (by norm_num [runArrow100])
  refine ⟨by norm_num, by norm_num, le_refl 1, by norm_num [runArrow100], h,
    ?_, ?_⟩
  · rw [h]
    show lerp ⟨0, 0⟩ ⟨100, 0⟩ _ = _
    rw [show runArrow100.length = 100 from rfl]
    rw [show min (1 : ℚ) (8 * 5 * 1 / 100) = 2 / 5 from by
      rw [min_eq_right] <;> norm_num]
    simp [lerp]
    norm_num
  · rw [show runArrow100.end_pos = ⟨100, 0⟩ from rfl]
    intro heq
    exact absurd (congrArg Point.x heq) (by norm_num)

lemma setReceiverRev_eq_none (r : String) :
    ∀ l : List TacticalArrow,
      setReceiverRev r l = none ↔
        ∀ ta ∈ l, ¬(ta.action_type = "pass" ∧ ta.receiver_id = none)
  | [] => by simp [setReceiverRev]
  | ta :: rest => by
      by_cases h : ta.action_type = "pass" ∧ ta.receiver_id = none
      · simp only [setReceiverRev, if_pos h]
        simp only [List.mem_cons]
        constructor
        · intro hcontra; exact absurd hcontra (by simp)
        · intro hall; exact absurd h (hall ta (Or.inl rfl))
      · simp only [setReceiverRev, if_neg h]
        cases hrec : setReceiverRev r rest with
        | none =>
            simp only [List.mem_cons]
            constructor
            · intro _ ta' hta'
              rcases hta' with rfl | hmem
              · exact h
              · exact (setReceiverRev_eq_none r rest).mp hrec ta' hmem
            · intro _; trivial
        | some hitrest =>
            simp only [List.mem_cons]
            constructor
            · intro hcontra; exact absurd hcontra (by simp)
            · intro hall
              have : setReceiverRev r rest = none :=
                (setReceiverRev_eq_none r rest).mpr
                  (fun ta' hmem => hall ta' (Or.inr hmem))
              rw [this] at hrec; exact absurd hrec (by simp)

lemma setReceiverRev_eq_some (r : String) :
    ∀ (l : List TacticalArrow) (hit : TacticalArrow) (l' : List TacticalArrow),
      setReceiverRev r l = some (hit, l') →
      ∃ l₁ l₂, l = l₁ ++ hit :: l₂ ∧
        (∀ tb ∈ l₁, ¬(tb.action_type = "pass" ∧ tb.receiver_id = none)) ∧
        (hit.action_type = "pass" ∧ hit.receiver_id = none) ∧
        l' = l₁ ++ { hit with receiver_id := some r } :: l₂
  | [], hit, l' => by simp [setReceiverRev]
  | ta :: rest, hit, l' => by
      by_cases h : ta.action_type = "pass" ∧ ta.receiver_id = none
      · simp only [setReceiverRev, if_pos h, Option.some.injEq, Prod.mk.injEq]
        rintro ⟨rfl, rfl⟩
        exact ⟨[], rest, by simp, by simp, h, by simp⟩
      · simp only [setReceiverRev, if_neg h]
        cases hrec : setReceiverRev r rest with
        | none => simp
        | some hitrest =>
            simp only [Option.some.injEq]
            intro heq
            have hhit : hitrest.1 = hit := congrArg Prod.fst heq
            have hl' : ta :: hitrest.2 = l' := congrArg Prod.snd heq
            obtain ⟨l₁, l₂, hsplit, hnp, hpend, hrest'⟩ :=
              setReceiverRev_eq_some r rest hitrest.1 hitrest.2 hrec
            subst hhit
            refine ⟨ta :: l₁, l₂, by simp [hsplit], ?_, hpend, by
              rw [← hl', hrest']; simp⟩
            intro tb htb
            rcases List.mem_cons.mp htb with rfl | hmem
            · exact h
            · exact hnp tb hmem

lemma reverse_append_cons {α : Type} (l₁ : List α) (a : α) (l₂ : List α) :
    (l₁ ++ a :: l₂).reverse = l₂.reverse ++ a :: l₁.reverse := by
  simp [List.reverse_append]

/-- C3: `set_pass_receiver` assigns the receiver to exactly the most
recently created pass TacticalArrow lacking a `receiver_id`, appends exactly
one PossessionLink `{from_player, to_player, arrow_id}` for that arrow and
returns `True`; when no pass lacking a receiver exists it returns `False`
and leaves the whole state unchanged. -/
theorem set_pass_receiver_spec (st : SimState) (r : String) :
    ((set_pass_receiver st r).1 = false ↔
      ∀ ta ∈ st.tactical_arrows,
        ¬(ta.action_type = "pass" ∧ ta.receiver_id = none)) ∧
    ((set_pass_receiver st r).1 = false → (set_pass_receiver st r).2 = st) ∧
    ((set_pass_receiver st r).1 = true →
      ∃ pre ta post,
        st.tactical_arrows = pre ++ ta :: post ∧
        ta.action_type = "pass" ∧ ta.receiver_id = none ∧
        (∀ tb ∈ post, ¬(tb.action_type = "pass" ∧ tb.receiver_id = none)) ∧
        (set_pass_receiver st r).2.tactical_arrows =
          pre ++ { ta with receiver_id := some r } :: post ∧
        (set_pass_receiver st r).2.ball_possession_chain =
          st.ball_possession_chain ++ [⟨ta.player_id, r, ta.arrow_id⟩] ∧
        (∀ k, (set_pass_receiver st r).2.pass_receivers k =
          if k = ta.arrow_id then some r else st.pass_receivers k) ∧
        (set_pass_receiver st r).2.player_associations =
          st.player_associations ∧
        (set_pass_receiver st r).2.simulated_player_positions =
          st.simulated_player_positions ∧
        (set_pass_receiver st r).2.simulated_ball_positions =
          st.simulated_ball_positions) := by
  unfold set_pass_receiver
  cases hrec : setReceiverRev r st.tactical_arrows.reverse with
  | none =>
      simp only []
      refine ⟨?_, fun _ => by trivial, fun h => absurd h (by simp)⟩
      constructor
      · intro _ ta hta
        exact (setReceiverRev_eq_none r _).mp hrec ta (List.mem_reverse.mpr hta)
      · intro _; trivial
  | some hit =>
      obtain ⟨l₁, l₂, hsplit, hnp, hpend, hrev'⟩ :=
        setReceiverRev_eq_some r _ hit.1 hit.2 hrec
      simp only []
      refine ⟨⟨fun hcontra => absurd hcontra (by simp), fun hall => ?_⟩,
        fun hcontra => absurd hcontra (by simp), fun _ => ?_⟩
      · exfalso
        have hin : hit.1 ∈ st.tactical_arrows := by
          have : hit.1 ∈ st.tactical_arrows.reverse := by
            rw [hsplit]; exact List.mem_append.mpr (Or.inr (List.mem_cons_self _ _))
          exact List.mem_reverse.mp this
        exact hall hit.1 hin hpend
      · refine ⟨l₂.reverse, hit.1, l₁.reverse, ?_, hpend.1, hpend.2,
          ?_, ?_, by trivial, fun k => by trivial, by trivial, by trivial,
          by trivial⟩
        · have := congrArg List.reverse hsplit
          rw [List.reverse_reverse, reverse_append_cons] at this
          exact this
        · intro tb htb
          exact hnp tb (List.mem_reverse.mp htb)
        · show hit.2.reverse = _
          rw [hrev', reverse_append_cons]

/-- A pending pass arrow for the C3 witness. -/
def passArrowA : TacticalArrow :=
  { arrow_id := 10, player_id := "H1", action_type := "pass",
    start_pos := ⟨0, 0⟩, end_pos := ⟨10, 0⟩, length := 10,
    associated_frame := 0 }

/-- A simulation-manager state holding one pending pass. -/
def pendingPassState : SimState :=
  { home_ids := ["H1"], away_ids := ["A3"],
    tactical_arrows := [passArrowA],
    ball_possession_chain := [],
    player_associations := fun _ => none,
    pass_receivers := fun _ => none,
    simulated_player_positions := fun _ => [],
    simulated_ball_positions := [] }

/-- C3 witness: on a state with exactly one pending pass,
`set_pass_receiver "A3"` returns `True` and resolves that pass. -/
theorem set_pass_receiver_spec_witness :
    (set_pass_receiver pendingPassState "A3").1 = true ∧
    ∃ pre ta post,
      pendingPassState.tactical_arrows = pre ++ ta :: post ∧
      ta.action_type = "pass" ∧ ta.receiver_id = none ∧
      (∀ tb ∈ post, ¬(tb.action_type = "pass" ∧ tb.receiver_id = none)) ∧
      (set_pass_receiver pendingPassState "A3").2.tactical_arrows =
        pre ++ { ta with receiver_id := some "A3" } :: post ∧
      (set_pass_receiver pendingPassState "A3").2.ball_possession_chain =
        pendingPassState.ball_possession_chain ++
          [⟨ta.player_id, "A3", ta.arrow_id⟩] ∧
      (∀ k, (set_pass_receiver pendingPassState "A3").2.pass_receivers k =
        if k = ta.arrow_id then some "A3"
        else pendingPassState.pass_receivers k) ∧
      (set_pass_receiver pendingPassState "A3").2.player_associations =
        pendingPassState.player_associations ∧
      (set_pass_receiver pendingPassState "A3").2.simulated_player_positions =
        pendingPassState.simulated_player_positions ∧
      (set_pass_receiver pendingPassState "A3").2.simulated_ball_positions =
        pendingPassState.simulated_ball_positions :=
  ⟨rfl, (set_pass_receiver_spec pendingPassState "A3").2.2 rfl⟩

/-- C4: after `remove_arrow_association`, the TacticalArrow list, the
player-association map, the pass-receiver map and the possession chain
contain zero entries referencing the removed arrow's identity, while
entries for every other arrow are unchanged. -/
theorem remove_arrow_cleanup (st : SimState) (aid : ℕ) :
    (∀ ta ∈ (remove_arrow_association st aid).tactical_arrows,
      ta.arrow_id ≠ aid) ∧
    (remove_arrow_association st aid).player_associations aid = none ∧
    (remove_arrow_association st aid).pass_receivers aid = none ∧
    (∀ link ∈ (remove_arrow_association st aid).ball_possession_chain,
      link.arrow_id ≠ aid) ∧
    (∀ ta, ta.arrow_id ≠ aid →
      (ta ∈ (remove_arrow_association st aid).tactical_arrows ↔
        ta ∈ st.tactical_arrows)) ∧
    (∀ link, link.arrow_id ≠ aid →
      (link ∈ (remove_arrow_association st aid).ball_possession_chain ↔
        link ∈ st.ball_possession_chain)) ∧
    (∀ k, k ≠ aid →
      (remove_arrow_association st aid).player_associations k =
        st.player_associations k ∧
      (remove_arrow_association st aid).pass_receivers k =
        st.pass_receivers k) := by
  unfold remove_arrow_association
  refine ⟨?_, by simp, by simp, ?_, ?_, ?_, ?_⟩
  · intro ta hta
    simpa using (List.mem_filter.mp hta).2
  · intro link hlink
    simpa using (List.mem_filter.mp hlink).2
  · intro ta hne
    simp [List.mem_filter, hne]
  · intro link hne
    simp [List.mem_filter, hne]
  · intro k hk
    simp [hk]

/-- A chain link referencing arrow 2, kept by the C4 witness cleanup. -/
def linkB : PossessionLink := ⟨"H2", "A5", 2⟩

/-- A simulation-manager state with two associated arrows (ids 1 and 2). -/
def cleanupState : SimState :=
  { home_ids := ["H1", "H2"], away_ids := ["A3", "A5"],
    tactical_arrows :=
      [{ arrow_id := 1, player_id := "H1", action_type := "pass",
         start_pos := ⟨0, 0⟩, end_pos := ⟨10, 0⟩, length := 10,
         associated_frame := 0, receiver_id := some "A3" },
       { arrow_id := 2, player_id := "H2", action_type := "run",
         start_pos := ⟨0, 0⟩, end_pos := ⟨5, 5⟩, length := 8,
         associated_frame := 0 }],
    ball_possession_chain := [⟨"H1", "A3", 1⟩, linkB],
    player_associations := fun k =>
      if k = 1 then some "H1" else if k = 2 then some "H2" else none,
    pass_receivers := fun k => if k = 1 then some "A3" else none,
    simulated_player_positions := fun _ => [],
    simulated_ball_positions := [] }

/-- C4 witness: removing arrow 1 from `cleanupState` purges its entries and
keeps arrow 2's entries. -/
theorem remove_arrow_cleanup_witness :
    (remove_arrow_association cleanupState 1).player_associations 1 = none ∧
    (remove_arrow_association cleanupState 1).pass_receivers 1 = none ∧
    ((remove_arrow_association cleanupState 1).player_associations 2 =
        cleanupState.player_associations 2 ∧
      (remove_arrow_association cleanupState 1).pass_receivers 2 =
        cleanupState.pass_receivers 2) ∧
    (linkB ∈ (remove_arrow_association cleanupState 1).ball_possession_chain ↔
      linkB ∈ cleanupState.ball_possession_chain) := by
  obtain ⟨h1, h2, h3, h4, h5, h6, h7⟩ := remove_arrow_cleanup cleanupState 1
  exact ⟨h2, h3, h7 2 (by decide), h6 linkB (by decide)⟩

/-- C5 counterexample: a rectangle-zone manager holding a single buffered
point.  `finish_zone` returns `False` and adds no zone, but — contrary to
the claim — the point buffer is NOT discarded: it still holds the point. -/
theorem finish_zone_keeps_buffer_counterexample :
    (finish_zone { initialRectZoneManager with zone_points := [⟨3, 4⟩] }).1
        = false ∧
    (finish_zone { initialRectZoneManager with zone_points := [⟨3, 4⟩] }).2.zones
        = [] ∧
    (finish_zone { initialRectZoneManager with zone_points := [⟨3, 4⟩] }).2.zone_points
        = [⟨3, 4⟩] ∧
    ([⟨3, 4⟩] : List Point) ≠ [] := by
  refine ⟨rfl, rfl, rfl, by decide⟩

/-- C5 (amended): a commit with fewer than 2 buffered points adds no shape
and returns a failure value; the arrow manager discards its point buffer
while the zone manager leaves the buffer untouched; and `finish_arrow`
never commits an arrow with fewer than 2 points. -/
theorem finish_commit_min_points (ast : ArrowManagerState)
    (zst : RectZoneManagerState) :
    (ast.arrow_points.length < 2 →
      (finish_arrow ast).1 = none ∧
      (finish_arrow ast).2.arrows = ast.arrows ∧
      (finish_arrow ast).2.arrow_points = []) ∧
    (zst.zone_points.length < 2 →
      (finish_zone zst).1 = false ∧ (finish_zone zst).2 = zst) ∧
    ((∀ a ∈ ast.arrows, 2 ≤ a.arrow_points.length) →
      ∀ a ∈ (finish_arrow ast).2.arrows, 2 ≤ a.arrow_points.length) := by
  refine ⟨fun hlt => ?_, fun hlt => ?_, fun hinv => ?_⟩
  · unfold finish_arrow
    rw [if_pos hlt]
    exact ⟨rfl, rfl, rfl⟩
  · unfold finish_zone
    rw [if_pos hlt]
    exact ⟨rfl, rfl⟩
  · unfold finish_arrow draw_arrow
    by_cases hlt : ast.arrow_points.length < 2
    · rw [if_pos hlt]
      exact hinv
    · rw [if_neg hlt, if_neg hlt]
      intro a ha
      simp only [List.mem_append, List.mem_singleton] at ha
      rcases ha with ha | rfl
      · exact hinv a ha
      · exact not_lt.mp hlt

/-- An arrow manager holding a single buffered point, for the C5 witness. -/
def onePointArrowState : ArrowManagerState :=
  { arrows := [], arrow_points := [⟨1, 1⟩], arrow_color := "#000000",
    arrow_width := 4, arrow_style := "solid", arrow_curved := false }

/-- C5 witness: with one buffered point, the arrow commit fails, adds
nothing and clears the buffer; the zone commit fails and adds nothing. -/
theorem finish_commit_min_points_witness :
    onePointArrowState.arrow_points.length < 2 ∧
    (finish_arrow onePointArrowState).1 = none ∧
    (finish_arrow onePointArrowState).2.arrows = [] ∧
    (finish_arrow onePointArrowState).2.arrow_points = [] ∧
    (finish_zone { initialRectZoneManager with zone_points := [⟨3, 4⟩] }).1
      = false := by
  obtain ⟨ha, hz, _⟩ := finish_commit_min_points onePointArrowState
    { initialRectZoneManager with zone_points := [⟨3, 4⟩] }
  obtain ⟨h1, h2, h3⟩ := ha (by decide)
  exact ⟨by decide, h1, h2, h3, (hz (by decide)).1⟩

lemma listModify_mem {α : Type} :
    ∀ (l : List α) (i : ℕ) (f : α → α) (z : α),
      z ∈ listModify l i f → z ∈ l ∨ ∃ a ∈ l, z = f a
  | [], _, _, _, h => by simp [listModify] at h
  | a :: l, 0, f, z, h => by
      rcases List.mem_cons.mp h with rfl | hmem
      · exact Or.inr ⟨a, List.mem_cons_self a l, rfl⟩
      · exact Or.inl (List.mem_cons_of_mem a hmem)
  | a :: l, i + 1, f, z, h => by
      rcases List.mem_cons.mp h with rfl | hmem
      · exact Or.inl (List.mem_cons_self z l)
      · rcases listModify_mem l i f z hmem with hin | ⟨b, hb, rfl⟩
        · exact Or.inl (List.mem_cons_of_mem a hin)
        · exact Or.inr ⟨b, List.mem_cons_of_mem a hb, rfl⟩

lemma mem_of_mem_eraseIdx' {α : Type} :
    ∀ (l : List α) (i : ℕ) (z : α), z ∈ l.eraseIdx i → z ∈ l
  | [], _, _, h => by simp [List.eraseIdx] at h
  | a :: l, 0, z, h => List.mem_cons_of_mem a h
  | a :: l, i + 1, z, h => by
      rcases List.mem_cons.mp h with rfl | hmem
      · exact List.mem_cons_self z l
      · exact List.mem_cons_of_mem a (mem_of_mem_eraseIdx' l i z hmem)

/-- A zone-manager style value allowed by the invariant. -/
def styleOK (st : String) : Prop := st = "solid" ∨ st = "dashed"

/-- The style invariant over a whole rectangle-zone manager state. -/
def zoneStylesOK (st : RectZoneManagerState) : Prop :=
  styleOK st.zone_style ∧ ∀ z ∈ st.zones, styleOK z.zone_style

lemma normalizeZoneStyle_ok (s : String) : styleOK (normalizeZoneStyle s) := by
  unfold normalizeZoneStyle
  split_ifs
  · exact Or.inr rfl
  · exact Or.inl rfl

lemma applyRectZoneOp_preserves (st : RectZoneManagerState) (op : RectZoneOp)
    (h : zoneStylesOK st) : zoneStylesOK (applyRectZoneOp st op) := by
  obtain ⟨hdef, hzones⟩ := h
  cases op with
  | setMode m => exact ⟨hdef, hzones⟩
  | addPoint p =>
      unfold applyRectZoneOp zoneAddPoint
      split_ifs <;> exact ⟨hdef, hzones⟩
  | finishZone =>
      unfold applyRectZoneOp finish_zone
      split_ifs with hlt
      · exact ⟨hdef, hzones⟩
      · cases hpts : st.zone_points with
        | nil => exact ⟨hdef, hzones⟩
        | cons p0 rest =>
            cases rest with
            | nil => exact ⟨hdef, hzones⟩
            | cons p1 rest' =>
                refine ⟨hdef, ?_⟩
                intro z hz
                simp only [List.mem_append, List.mem_singleton] at hz
                rcases hz with hz | rfl
                · exact hzones z hz
                · exact hdef
  | cancelZone => exact ⟨hdef, hzones⟩
  | setStyle s =>
      unfold applyRectZoneOp zoneManagerSetStyle
      cases hsel : st.selected_zone with
      | none => exact ⟨normalizeZoneStyle_ok s, hzones⟩
      | some i =>
          refine ⟨hdef, ?_⟩
          intro z hz
          rcases listModify_mem _ _ _ _ hz with hin | ⟨a, _, rfl⟩
          · exact hzones z hin
          · exact normalizeZoneStyle_ok _
  | setColor c =>
      unfold applyRectZoneOp zoneManagerSetColor
      cases hsel : st.selected_zone with
      | none => exact ⟨hdef, hzones⟩
      | some i =>
          refine ⟨hdef, ?_⟩
          intro z hz
          rcases listModify_mem _ _ _ _ hz with hin | ⟨a, ha, rfl⟩
          · exact hzones z hin
          · exact hzones a ha
  | setWidth w =>
      unfold applyRectZoneOp zoneManagerSetWidth
      cases hsel : st.selected_zone with
      | none => exact ⟨hdef, hzones⟩
      | some i =>
          refine ⟨hdef, ?_⟩
          intro z hz
          rcases listModify_mem _ _ _ _ hz with hin | ⟨a, ha, rfl⟩
          · exact hzones z hin
          · exact hzones a ha
  | setFillAlpha a =>
      unfold applyRectZoneOp zoneManagerSetFillAlpha
      cases hsel : st.selected_zone with
      | none => exact ⟨hdef, hzones⟩
      | some i =>
          refine ⟨hdef, ?_⟩
          intro z hz
          rcases listModify_mem _ _ _ _ hz with hin | ⟨b, hb, rfl⟩
          · exact hzones z hin
          · exact hzones b hb
  | setRotationOp a =>
      unfold applyRectZoneOp zoneManagerSetRotation
      cases hsel : st.selected_zone with
      | none => exact ⟨hdef, hzones⟩
      | some i =>
          refine ⟨hdef, ?_⟩
          intro z hz
          rcases listModify_mem _ _ _ _ hz with hin | ⟨b, hb, rfl⟩
          · exact hzones z hin
          · exact hzones b hb
  | selectZone i => exact ⟨hdef, hzones⟩
  | deleteSelected =>
      unfold applyRectZoneOp zoneManagerDeleteSelected
      cases hsel : st.selected_zone with
      | none => exact ⟨hdef, hzones⟩
      | some i =>
          refine ⟨hdef, ?_⟩
          intro z hz
          exact hzones z (mem_of_mem_eraseIdx' _ _ _ hz)

lemma applyRectZoneOps_preserves :
    ∀ (ops : List RectZoneOp) (st : RectZoneManagerState),
      zoneStylesOK st → zoneStylesOK (applyRectZoneOps st ops)
  | [], st, h => h
  | op :: ops, st, h =>
      applyRectZoneOps_preserves ops (applyRectZoneOp st op)
        (applyRectZoneOp_preserves st op h)

/-- C10: `set_style` stores `"dashed"` exactly when the lower-cased input
is one of `"dash"`, `"dashed"`, `"--"` and `"solid"` otherwise, and after
any sequence of manager operations from a fresh manager every stored style
(default and per zone) is one of the two values. -/
theorem zone_style_invariant :
    (∀ s : String,
      (normalizeZoneStyle s = "dashed" ↔
        (pyLower s = "dash" ∨ pyLower s = "dashed" ∨ pyLower s = "--")) ∧
      (¬(pyLower s = "dash" ∨ pyLower s = "dashed" ∨ pyLower s = "--") →
        normalizeZoneStyle s = "solid")) ∧
    (∀ (z : RectZoneItem) (s : String),
      (z.setStyle s).zone_style = normalizeZoneStyle s) ∧
    (∀ ops : List RectZoneOp,
      zoneStylesOK (applyRectZoneOps initialRectZoneManager ops)) := by
  refine ⟨fun s => ⟨?_, ?_⟩, fun z s => rfl, fun ops => ?_⟩
  · unfold normalizeZoneStyle
    split_ifs with h
    · exact ⟨fun _ => h, fun _ => rfl⟩
    · exact ⟨fun hcontra => absurd hcontra (by decide), fun hc => absurd hc h⟩
  · intro h
    unfold normalizeZoneStyle
    rw [if_neg h]
  · exact applyRectZoneOps_preserves ops initialRectZoneManager
      ⟨Or.inl rfl, by intro z hz; simp [initialRectZoneManager] at hz⟩

/-- C10 witness: setting style `"--"` on a fresh manager then committing a
two-point zone yields a state whose styles are all solid/dashed, and
`normalizeZoneStyle "--" = "dashed"`. -/
theorem zone_style_invariant_witness :
    normalizeZoneStyle "--" = "dashed" ∧
    zoneStylesOK (applyRectZoneOps initialRectZoneManager
      [RectZoneOp.setStyle "--", RectZoneOp.addPoint ⟨0, 0⟩,
        RectZoneOp.addPoint ⟨5, 5⟩, RectZoneOp.finishZone]) := by
  refine ⟨((zone_style_invariant.1 "--").1).mpr (by decide), ?_⟩
  exact zone_style_invariant.2.2 _

/-- A 10×10 rectangle zone at rotation 0 in an active resize session. -/
def degenerateZone : RectZoneItem :=
  ⟨⟨0, 0, 10, 10⟩, "#000000", 1, "solid", 0, 0⟩

/-- Its resize session, snapshotting the original rect. -/
def degenerateSession : ZoneResizeSession := ⟨true, some ⟨0, 0, 10, 10⟩⟩

/-- C6 counterexample: dragging the bottom-right handle of a 10×10 zone at
rotation 0 (cos = 1, sin = 0) to local position (1/2, 1/2) makes the
prospective bounds 1/2 × 1/2 — a resulting dimension ≤ 1 unit — yet
`RectangleZoneItem.update_resize` is NOT a no-op: it clamps both
dimensions to 1 and recenters, changing the rect from (0, 0, 10, 10) to
(−1/4, −1/4, 1, 1). -/
theorem zone_resize_degenerate_counterexample :
    (normRectFromPoints ⟨1 / 2, 1 / 2⟩
      (boundsCorner ⟨0, 0, 10, 10⟩ (oppositeCorner "bottom_right"))).w ≤ 1 ∧
    (zoneUpdateResize degenerateZone degenerateSession "bottom_right"
        ⟨1 / 2, 1 / 2⟩ 1 0).rect = ⟨-(1 / 4), -(1 / 4), 1, 1⟩ ∧
    (zoneUpdateResize degenerateZone degenerateSession "bottom_right"
        ⟨1 / 2, 1 / 2⟩ 1 0).rect ≠ degenerateZone.rect := by
  have habs : |(0 : ℚ) - 1 / 2| = 1 / 2 := by
    rw [show (0 : ℚ) - 1 / 2 = -(1 / 2) by norm_num, abs_neg,
      abs_of_nonneg (by norm_num : (0 : ℚ) ≤ 1 / 2)]
  have hspan : normRectFromPoints ⟨1 / 2, 1 / 2⟩ ⟨0, 0⟩ =
      ⟨0, 0, 1 / 2, 1 / 2⟩ := by
    unfold normRectFromPoints
    simp only []
    simp [habs]
  have hres : (zoneUpdateResize degenerateZone degenerateSession
      "bottom_right" ⟨1 / 2, 1 / 2⟩ 1 0).rect = ⟨-(1 / 4), -(1 / 4), 1, 1⟩ := by
    unfold zoneUpdateResize degenerateZone degenerateSession
    rw [if_neg (by simp)]
    simp only [oppositeCorner, Rect.center]
    rw [if_neg (by decide :
      ¬("bottom_right" ∉ ["top_left", "top_right", "bottom_left", "bottom_right"]))]
    norm_num
    rw [show boundsCorner ⟨(0 : ℚ), (0 : ℚ), 10, 10⟩ "top_left" =
      (⟨0, 0⟩ : Point) from rfl, hspan]
    simp only []
    simp only [show ((1 : ℚ) ⊔ (1 / 2)) = 1 from max_eq_left (by norm_num)]
    norm_num
  refine ⟨?_, hres, ?_⟩
  · rw [show boundsCorner ⟨(0 : ℚ), (0 : ℚ), 10, 10⟩
      (oppositeCorner "bottom_right") = (⟨0, 0⟩ : Point) from rfl, hspan]
    norm_num
  · rw [hres]
    intro hcontra
    exact absurd (congrArg Rect.x hcontra) (by norm_num [degenerateZone])

/-- C6 (amended): an arrow resize update whose prospective width or height
is ≤ 1 unit is a no-op (points unchanged, session untouched), but a
rectangle-zone resize update in an active session is never a no-op on
degenerate input: it clamps the resulting width and height to a minimum of
1 unit. -/
theorem resize_degenerate_dimension (arrow_points : List Point)
    (group_pos : Point) (sess : ArrowResizeSession)
    (corner_type : String) (scene_pos : Point)
    (z : RectZoneItem) (zcorner : String) (p : Point) (c s : ℚ)
    (orig : Rect) :
    (((arrowResizeSpan sess corner_type scene_pos).w ≤ 1 ∨
        (arrowResizeSpan sess corner_type scene_pos).h ≤ 1) →
      arrowUpdateResize arrow_points group_pos sess corner_type scene_pos =
        arrow_points) ∧
    (zcorner ∈ ["top_left", "top_right", "bottom_left", "bottom_right"] →
      1 ≤ (zoneUpdateResize z ⟨true, some orig⟩ zcorner p c s).rect.w ∧
      1 ≤ (zoneUpdateResize z ⟨true, some orig⟩ zcorner p c s).rect.h) := by
  constructor
  · intro hdeg
    unfold arrowUpdateResize
    by_cases h1 : ¬sess.is_resizing ∨ sess.original_points = []
    · exact if_pos h1
    · rw [if_neg h1]
      exact if_pos hdeg
  · intro hmem
    unfold zoneUpdateResize
    rw [if_neg (by simp)]
    simp only []
    rw [if_neg (not_not_intro hmem)]
    simp only []
    constructor
    · split_ifs <;> exact le_max_left 1 _
    · split_ifs <;> exact le_max_left 1 _

/-- A straight arrow's resize session for the C6 witness. -/
def arrowSessW : ArrowResizeSession :=
  ⟨true, ⟨10, 10⟩, [⟨0, 0⟩, ⟨10, 10⟩]⟩

/-- C6 witness: dragging the bottom-right corner of a 10×10 arrow bounding
box to (1, 1) gives prospective dimensions 1×1 (≤ 1), so the arrow points
are unchanged; and a clamped zone resize yields dimensions ≥ 1. -/
theorem resize_degenerate_dimension_witness :
    ((arrowResizeSpan arrowSessW "bottom_right" ⟨1, 1⟩).w ≤ 1 ∨
      (arrowResizeSpan arrowSessW "bottom_right" ⟨1, 1⟩).h ≤ 1) ∧
    arrowUpdateResize [⟨0, 0⟩, ⟨10, 10⟩] ⟨0, 0⟩ arrowSessW "bottom_right"
      ⟨1, 1⟩ = [⟨0, 0⟩, ⟨10, 10⟩] ∧
    ("bottom_right" : String) ∈
      ["top_left", "top_right", "bottom_left", "bottom_right"] ∧
    1 ≤ (zoneUpdateResize degenerateZone ⟨true, some ⟨0, 0, 10, 10⟩⟩
      "bottom_right" ⟨1 / 2, 1 / 2⟩ 1 0).rect.w := by
  have hspan : arrowResizeSpan arrowSessW "bottom_right" ⟨1, 1⟩ =
      ⟨0, 0, 1, 1⟩ := by
    have c1 : ("bottom_right" = "top_left" ∨ "bottom_right" = "bottom_left")
        = False := eq_false (by decide)
    have c2 : ("bottom_right" = "top_right" ∨ "bottom_right" = "bottom_right")
        = True := eq_true (by decide)
    have c3 : ("bottom_right" = "top_left" ∨ "bottom_right" = "top_right")
        = False := eq_false (by decide)
    have c4 : ("bottom_right" = "bottom_left" ∨ "bottom_right" = "bottom_right")
        = True := eq_true (by decide)
    unfold arrowResizeSpan arrowOrigBounds arrowSessW
    simp only [List.map_cons, List.map_nil, List.foldl_cons, List.foldl_nil,
      List.headD_cons, c1, c2, c3, c4, if_true, if_false]
    simp only [show (0 : ℚ) ⊓ 0 ⊓ 10 = 0 from by
        rw [min_self, min_eq_left (by norm_num : (0 : ℚ) ≤ 10)],
      show (0 : ℚ) ⊔ 0 ⊔ 10 = 10 from by
        rw [max_self, max_eq_right (by norm_num : (0 : ℚ) ≤ 10)]]
    norm_num
  have hdeg : (arrowResizeSpan arrowSessW "bottom_right" ⟨1, 1⟩).w ≤ 1 ∨
      (arrowResizeSpan arrowSessW "bottom_right" ⟨1, 1⟩).h ≤ 1 := by
    rw [hspan]; left; norm_num
  obtain ⟨harrow, hzone⟩ := resize_degenerate_dimension [⟨0, 0⟩, ⟨10, 10⟩]
    ⟨0, 0⟩ arrowSessW "bottom_right" ⟨1, 1⟩ degenerateZone
    "bottom_right" ⟨1 / 2, 1 / 2⟩ 1 0 ⟨0, 0, 10, 10⟩
  exact ⟨hdeg, harrow hdeg, by decide, (hzone (by decide)).1⟩

/-- C8: for a rectangle zone with rect (0, 0, 10, 20) at rotation 0 the
computed selection AABB equals (0, 0, 10, 20) (for any cosine/sine values
the rendering library would supply), and setting the rotation to 90° and
then back to 0° restores the selection AABB exactly — hence within the
1e-6 tolerance: `set_rotation` never touches `rect`, and
`_update_selection_rect` returns `rect` itself at rotation 0. -/
theorem rotation_roundtrip_aabb (z : RectZoneItem) (c s c' s' : ℚ)
    (h0 : z.rotation_angle = 0) :
    (z.rect = ⟨0, 0, 10, 20⟩ → selectionAABB z c s = ⟨0, 0, 10, 20⟩) ∧
    selectionAABB ((z.setRotation 90).setRotation 0) c s =
      selectionAABB z c' s' ∧
    |(selectionAABB ((z.setRotation 90).setRotation 0) c s).x -
        (selectionAABB z c' s').x| ≤ 1 / 1000000 ∧
    |(selectionAABB ((z.setRotation 90).setRotation 0) c s).y -
        (selectionAABB z c' s').y| ≤ 1 / 1000000 ∧
    |(selectionAABB ((z.setRotation 90).setRotation 0) c s).w -
        (selectionAABB z c' s').w| ≤ 1 / 1000000 ∧
    |(selectionAABB ((z.setRotation 90).setRotation 0) c s).h -
        (selectionAABB z c' s').h| ≤ 1 / 1000000 := by
  have ha : selectionAABB z c s = z.rect := by
    unfold selectionAABB
    rw [if_neg (not_not_intro h0)]
  have ha' : selectionAABB z c' s' = z.rect := by
    unfold selectionAABB
    rw [if_neg (not_not_intro h0)]
  have hb : selectionAABB ((z.setRotation 90).setRotation 0) c s = z.rect := by
    unfold selectionAABB RectZoneItem.setRotation
    rw [if_neg (not_not_intro rfl)]
  refine ⟨fun hr => by rw [ha, hr], by rw [hb, ha'], ?_, ?_, ?_, ?_⟩ <;>
    rw [hb, ha', sub_self, abs_zero] <;> norm_num

/-- The rect-(0,0,10,20) zone of the C8 witness. -/
def roundtripZone : RectZoneItem := ⟨⟨0, 0, 10, 20⟩, "#000000", 1, "solid", 0, 0⟩

/-- C8 witness: the concrete zone's AABB at rotation 0 is its rect, and the
90°-then-0° round trip restores it. -/
theorem rotation_roundtrip_aabb_witness :
    roundtripZone.rotation_angle = 0 ∧
    selectionAABB roundtripZone 1 0 = ⟨0, 0, 10, 20⟩ ∧
    selectionAABB ((roundtripZone.setRotation 90).setRotation 0) 1 0 =
      selectionAABB roundtripZone 1 0 := by
  obtain ⟨h1, h2, _⟩ := rotation_roundtrip_aabb roundtripZone 1 0 1 0 rfl
  exact ⟨rfl, h1 rfl, h2⟩

lemma findPlayerStep_none_iff (click : Point) (pos : String → Point) (maxd : ℚ)
    (acc : Option (ℚ × String)) (q : String) :
    findPlayerStep click pos maxd acc q = none ↔
      acc = none ∧ ¬sqrtLe (distSq click (pos q)) maxd := by
  cases acc with
  | none =>
      unfold findPlayerStep
      simp only []
      split_ifs with h
      · simp [h]
      · simp [h]
  | some b =>
      unfold findPlayerStep
      simp only []
      split_ifs <;> simp

lemma findPlayerFold_none_iff (click : Point) (pos : String → Point) (maxd : ℚ) :
    ∀ (order : List String) (acc : Option (ℚ × String)),
      order.foldl (findPlayerStep click pos maxd) acc = none ↔
        acc = none ∧ ∀ q ∈ order, ¬sqrtLe (distSq click (pos q)) maxd
  | [], acc => by simp
  | q :: rest, acc => by
      rw [List.foldl_cons, findPlayerFold_none_iff click pos maxd rest,
        findPlayerStep_none_iff]
      constructor
      · rintro ⟨⟨hacc, hq⟩, hrest⟩
        refine ⟨hacc, fun q' hq' => ?_⟩
        rcases List.mem_cons.mp hq' with rfl | hmem
        · exact hq
        · exact hrest q' hmem
      · rintro ⟨hacc, hall⟩
        exact ⟨⟨hacc, hall q (List.mem_cons_self q rest)⟩,
          fun q' hq' => hall q' (List.mem_cons_of_mem q hq')⟩

lemma findPlayerFold_some_origin (click : Point) (pos : String → Point)
    (maxd : ℚ) :
    ∀ (order : List String) (acc : Option (ℚ × String)) (d : ℚ) (p : String),
      order.foldl (findPlayerStep click pos maxd) acc = some (d, p) →
      acc = some (d, p) ∨
        (p ∈ order ∧ d = distSq click (pos p) ∧ sqrtLe d maxd)
  | [], acc, d, p => fun h => Or.inl h
  | q :: rest, acc, d, p => by
      rw [List.foldl_cons]
      intro h
      rcases findPlayerFold_some_origin click pos maxd rest _ d p h with
        hstep | ⟨hmem, hval⟩
      · cases acc with
        | none =>
            unfold findPlayerStep at hstep
            simp only [] at hstep
            split_ifs at hstep with hin
            · obtain ⟨rfl, rfl⟩ : distSq click (pos q) = d ∧ q = p := by
                have h1 := congrArg (Option.map Prod.fst) hstep
                have h2 := congrArg (Option.map Prod.snd) hstep
                simp at h1 h2
                exact ⟨h1, h2⟩
              exact Or.inr ⟨List.mem_cons_self _ _, rfl, hin⟩
        | some b =>
            unfold findPlayerStep at hstep
            simp only [] at hstep
            split_ifs at hstep with hin
            · obtain ⟨rfl, rfl⟩ : distSq click (pos q) = d ∧ q = p := by
                have h1 := congrArg (Option.map Prod.fst) hstep
                have h2 := congrArg (Option.map Prod.snd) hstep
                simp at h1 h2
                exact ⟨h1, h2⟩
              exact Or.inr ⟨List.mem_cons_self _ _, rfl, hin.2⟩
            · exact Or.inl (by simpa using hstep)
      · exact Or.inr ⟨List.mem_cons_of_mem q hmem, hval⟩

lemma findPlayerFold_mono (click : Point) (pos : String → Point) (maxd : ℚ) :
    ∀ (order : List String) (b : ℚ × String) (d : ℚ) (p : String),
      order.foldl (findPlayerStep click pos maxd) (some b) = some (d, p) →
      d ≤ b.1
  | [], b, d, p => by
      intro h
      simp only [List.foldl_nil, Option.some.injEq] at h
      rw [show d = b.1 from (congrArg Prod.fst h.symm : _)]
  | q :: rest, b, d, p => by
      rw [List.foldl_cons]
      intro h
      by_cases hin : distSq click (pos q) < b.1 ∧ sqrtLe (distSq click (pos q)) maxd
      · rw [show findPlayerStep click pos maxd (some b) q =
            some (distSq click (pos q), q) from by
          unfold findPlayerStep; simp only []; rw [if_pos hin]] at h
        exact le_of_lt (lt_of_le_of_lt
          (findPlayerFold_mono click pos maxd rest _ d p h) hin.1)
      · rw [show findPlayerStep click pos maxd (some b) q = some b from by
          unfold findPlayerStep; simp only []; rw [if_neg hin]] at h
        exact findPlayerFold_mono click pos maxd rest b d p h

lemma findPlayerFold_min (click : Point) (pos : String → Point) (maxd : ℚ) :
    ∀ (order : List String) (acc : Option (ℚ × String)) (d : ℚ) (p : String),
      order.foldl (findPlayerStep click pos maxd) acc = some (d, p) →
      ∀ q ∈ order, sqrtLe (distSq click (pos q)) maxd →
        d ≤ distSq click (pos q)
  | [], acc, d, p => by simp
  | q :: rest, acc, d, p => by
      rw [List.foldl_cons]
      intro h q' hq' hq'in
      rcases List.mem_cons.mp hq' with rfl | hmem
      · cases acc with
        | none =>
            rw [show findPlayerStep click pos maxd none q' =
                some (distSq click (pos q'), q') from by
              unfold findPlayerStep; simp only []; rw [if_pos hq'in]] at h
            exact findPlayerFold_mono click pos maxd rest _ d p h
        | some b =>
            by_cases hlt : distSq click (pos q') < b.1
            · rw [show findPlayerStep click pos maxd (some b) q' =
                  some (distSq click (pos q'), q') from by
                unfold findPlayerStep; simp only []; rw [if_pos ⟨hlt, hq'in⟩]] at h
              exact findPlayerFold_mono click pos maxd rest _ d p h
            · rw [show findPlayerStep click pos maxd (some b) q' = some b from by
                unfold findPlayerStep
                simp only []
                rw [if_neg (fun hc => hlt hc.1)]] at h
              exact le_trans (findPlayerFold_mono click pos maxd rest b d p h)
                (not_lt.mp hlt)
      · exact findPlayerFold_min click pos maxd rest _ d p h q' hmem hq'in

/-- C7 (amended): `find_player_at_position` returns the nearest player
within `max_distance` where a player whose tracked position is unavailable
(NaN) is compared at the substitute position (0, 0) produced by
`_get_real_player_position`, rather than being skipped; it returns `none`
exactly when no player — with that substitution — lies within
`max_distance` of the click.  Distances are compared through their squares
(`sqrtLe`), which is exactly the source's comparison of square roots. -/
theorem find_player_nearest_substitute (st : SimState) (td : TrackingData)
    (click : Point) (frame : ℤ) (maxd : ℚ) :
    (find_player_at_position st td click frame maxd = none ↔
      ∀ q ∈ st.home_ids ++ st.away_ids,
        ¬sqrtLe (distSq click (getRealPlayerPosition st td q frame)) maxd) ∧
    (∀ p, find_player_at_position st td click frame maxd = some p →
      p ∈ st.home_ids ++ st.away_ids ∧
      sqrtLe (distSq click (getRealPlayerPosition st td p frame)) maxd ∧
      ∀ q ∈ st.home_ids ++ st.away_ids,
        sqrtLe (distSq click (getRealPlayerPosition st td q frame)) maxd →
        distSq click (getRealPlayerPosition st td p frame) ≤
          distSq click (getRealPlayerPosition st td q frame)) := by
  constructor
  · unfold find_player_at_position
    rw [Option.map_eq_none']
    rw [findPlayerFold_none_iff]
    simp
  · intro p hp
    unfold find_player_at_position at hp
    rw [Option.map_eq_some'] at hp
    obtain ⟨b, hfold, hsnd⟩ := hp
    obtain ⟨d, q⟩ := b
    subst hsnd
    rcases findPlayerFold_some_origin _ _ _ _ _ _ _ hfold with hacc | ⟨hmem, hd, hin⟩
    · exact absurd hacc (by simp)
    · subst hd
      exact ⟨hmem, hin, fun q' hq' hq'in =>
        findPlayerFold_min _ _ _ _ _ _ _ hfold q' hq' hq'in⟩

/-- Tracking data in which player H1's row at frame 0 is `[NaN, NaN]`. -/
def nanTD : TrackingData :=
  { getFrameData := fun _ => ("firstHalf", 0)
    teamRow := fun half side idx =>
      if half = "firstHalf" ∧ side = "Home" ∧ idx = 0 then some [none, none]
      else none
    ballRow := fun _ _ => none }

/-- A manager state with the single player H1. -/
def nanState : SimState :=
  { home_ids := ["H1"], away_ids := [],
    tactical_arrows := [], ball_possession_chain := [],
    player_associations := fun _ => none, pass_receivers := fun _ => none,
    simulated_player_positions := fun _ => [],
    simulated_ball_positions := [] }

/-- C7 counterexample: H1's tracked position at frame 0 is NaN, so no
player has an available position within any distance of the click — the
claim then requires `none` — yet `find_player_at_position` at click
(1/2, 0) with the default radius 1.6 returns `some "H1"`, because the NaN
position was substituted by (0, 0). -/
theorem find_player_nan_counterexample :
    nanTD.teamRow "firstHalf" "Home" 0 = some [none, none] ∧
    getRealPlayerPosition nanState nanTD "H1" 0 = ⟨0, 0⟩ ∧
    find_player_at_position nanState nanTD ⟨1 / 2, 0⟩ 0
      PLAYER_OUTER_RADIUS_BASE = some "H1" := by
  have hreal : getRealPlayerPosition nanState nanTD "H1" 0 = ⟨0, 0⟩ := rfl
  refine ⟨rfl, hreal, ?_⟩
  have hwithin : sqrtLe (distSq ⟨1 / 2, 0⟩ ⟨0, 0⟩) PLAYER_OUTER_RADIUS_BASE := by
    unfold sqrtLe distSq PLAYER_OUTER_RADIUS_BASE
    constructor
    · norm_num
    · norm_num
  unfold find_player_at_position
  rw [show nanState.home_ids ++ nanState.away_ids = ["H1"] from rfl]
  simp only [List.foldl_cons, List.foldl_nil]
  unfold findPlayerStep
  simp only []
  rw [hreal]
  rw [if_pos hwithin]
  rfl

/-- C7 witness: with a click 100 units away from every (substituted)
player position and the default radius, the lookup returns `none`. -/
theorem find_player_nearest_substitute_witness :
    find_player_at_position nanState nanTD ⟨100, 0⟩ 0
      PLAYER_OUTER_RADIUS_BASE = none := by
  obtain ⟨hiff, _⟩ := find_player_nearest_substitute nanState nanTD ⟨100, 0⟩ 0
    PLAYER_OUTER_RADIUS_BASE
  refine hiff.mpr ?_
  intro q hq
  rw [show nanState.home_ids ++ nanState.away_ids = ["H1"] from rfl] at hq
  have hq1 : q = "H1" := by simpa using hq
  subst hq1
  rw [show getRealPlayerPosition nanState nanTD "H1" 0 = ⟨0, 0⟩ from rfl]
  unfold sqrtLe distSq PLAYER_OUTER_RADIUS_BASE
  intro hc
  have h2 := hc.2
  norm_num at h2


/-- C2 (amended): the simulated ball position is driven by the FIRST pass
in the list, provided that first pass carries a `receiver_id`: with pass
speed `clamp(length/2, 15, 25)` m/s and duration ratio
`min(passDuration/intervalSeconds, 0.8)`, at progress ≤ ratio the ball is
the lerp between the passer's simulated position and the receiver's
position at fraction `progress/ratio`, and beyond the ratio it equals the
receiver's simulated (or real) position.  Later passes never matter, and
when the first pass lacks a receiver the ball stays at its initial
position even if a later pass has one. -/
theorem ball_position_first_pass (st : SimState) (td : TrackingData)
    (ball0 : Point) (holder : String) (first_pass : TacticalArrow)
    (rest rest' : List TacticalArrow) (progress interval_seconds : ℚ)
    (current_frame : ℤ) (rid : String) :
    (calcBallPositionWithSpeed st td ball0 holder (first_pass :: rest)
        progress interval_seconds current_frame =
      calcBallPositionWithSpeed st td ball0 holder (first_pass :: rest')
        progress interval_seconds current_frame) ∧
    (first_pass.receiver_id = none →
      calcBallPositionWithSpeed st td ball0 holder (first_pass :: rest)
        progress interval_seconds current_frame = ball0) ∧
    (first_pass.receiver_id = some rid →
      (progress ≤ min (first_pass.length /
          min 25 (max 15 (first_pass.length / 2)) / interval_seconds)
            (8 / 10) →
        calcBallPositionWithSpeed st td ball0 holder (first_pass :: rest)
            progress interval_seconds current_frame =
          lerp (calcPlayerPositionWithSpeed first_pass progress interval_seconds)
            (getPlayerPositionAtProgress st td rid progress interval_seconds
              current_frame)
            (progress / min (first_pass.length /
              min 25 (max 15 (first_pass.length / 2)) / interval_seconds)
              (8 / 10))) ∧
      (min (first_pass.length / min 25 (max 15 (first_pass.length / 2)) /
          interval_seconds) (8 / 10) < progress →
        calcBallPositionWithSpeed st td ball0 holder (first_pass :: rest)
            progress interval_seconds current_frame =
          getPlayerPositionAtProgress st td rid progress interval_seconds
            current_frame)) := by
  refine ⟨rfl, fun hnone => ?_, fun hsome => ⟨fun hle => ?_, fun hgt => ?_⟩⟩
  · unfold calcBallPositionWithSpeed
    simp only []
    rw [hnone]
  · unfold calcBallPositionWithSpeed
    simp only []
    rw [hsome]
    simp only []
    rw [if_pos hle]
  · unfold calcBallPositionWithSpeed
    simp only []
    rw [hsome]
    simp only []
    rw [if_neg (not_le.mpr hgt)]

/-- The 30 m pass (receiver "R") of the C2 witness. -/
def passArrow30 : TacticalArrow :=
  { arrow_id := 20, player_id := "H1", action_type := "pass",
    start_pos := ⟨0, 0⟩, end_pos := ⟨30, 0⟩, length := 30,
    associated_frame := 0, receiver_id := some "R" }

/-- Tracking data with no rows at all (everything falls back to defaults). -/
def trivialTD : TrackingData :=
  ⟨fun _ => ("h", 0), fun _ _ _ => none, fun _ _ => none⟩

/-- A manager state in which receiver "R" has one simulated sample (50, 0). -/
def recvState : SimState :=
  { home_ids := ["H1"], away_ids := ["R"],
    tactical_arrows := [passArrow30], ball_possession_chain := [],
    player_associations := fun _ => none, pass_receivers := fun _ => none,
    simulated_player_positions := fun p =>
      if p = "R" then [(50, 0, 0)] else [],
    simulated_ball_positions := [] }

lemma recvState_R_pos (progress : ℚ) (h0 : 0 ≤ progress) :
    getPlayerPositionAtProgress recvState trivialTD "R" progress 10 0 =
      ⟨50, 0⟩ := by
  unfold getPlayerPositionAtProgress
  rw [show recvState.simulated_player_positions "R" =
    [((50 : ℚ), (0 : ℚ), (0 : ℤ))] from rfl]
  rw [if_pos (by simp : ([((50 : ℚ), (0 : ℚ), (0 : ℤ))] :
    List (ℚ × ℚ × ℤ)) ≠ [])]
  have hlen : (([((50 : ℚ), (0 : ℚ), (0 : ℤ))] :
      List (ℚ × ℚ × ℤ)).length : ℤ) - 1 = 0 := rfl
  rw [hlen]
  rw [show progress * ((0 : ℤ) : ℚ) = 0 from by norm_num]
  rw [show pyInt 0 = 0 from by unfold pyInt; rw [if_pos le_rfl]; exact Int.floor_zero]
  rw [min_self]
  rfl

/-- C2 witness: for the 30 m pass over a 10 s interval the duration ratio
is 1/5; at progress 0.1 the ball is at (53/2, 0) — lerp fraction 1/2,
strictly between the passer at (3, 0) and the receiver at (50, 0) — and at
progress 0.3 the ball equals the receiver's position. -/
theorem ball_position_first_pass_witness :
    passArrow30.receiver_id = some "R" ∧
    min (passArrow30.length / min 25 (max 15 (passArrow30.length / 2)) / 10)
      (8 / 10) = 1 / 5 ∧
    (1 / 10 : ℚ) ≤ 1 / 5 ∧
    calcPlayerPositionWithSpeed passArrow30 (1 / 10) 10 = ⟨3, 0⟩ ∧
    getPlayerPositionAtProgress recvState trivialTD "R" (1 / 10) 10 0 =
      ⟨50, 0⟩ ∧
    calcBallPositionWithSpeed recvState trivialTD ⟨0, 0⟩ "H1" [passArrow30]
      (1 / 10) 10 0 = ⟨53 / 2, 0⟩ ∧
    (3 : ℚ) < 53 / 2 ∧ (53 / 2 : ℚ) < 50 ∧
    (1 / 5 : ℚ) < 3 / 10 ∧
    calcBallPositionWithSpeed recvState trivialTD ⟨0, 0⟩ "H1" [passArrow30]
      (3 / 10) 10 0 = ⟨50, 0⟩ := by
  have hratio : min (passArrow30.length /
      min 25 (max 15 (passArrow30.length / 2)) / 10) (8 / 10) = 1 / 5 := by
    rw [show passArrow30.length = 30 from rfl]
    rw [show (30 : ℚ) / 2 = 15 from by norm_num, max_self,
      min_eq_right (by norm_num : (15 : ℚ) ≤ 25),
      show (30 : ℚ) / 15 / 10 = 1 / 5 from by norm_num,
      min_eq_left (by norm_num : (1 / 5 : ℚ) ≤ 8 / 10)]
  have hpasser : calcPlayerPositionWithSpeed passArrow30 (1 / 10) 10 =
      ⟨3, 0⟩ := by
    unfold calcPlayerPositionWithSpeed maxSpeeds passArrow30
    simp only []
    rw [if_neg (show ¬("pass" = "run") from by decide),
      if_neg (show ¬("pass" = "dribble") from by decide)]
    simp only [if_true]
    rw [if_neg (by norm_num : ¬((0 : ℚ) < 0))]
    unfold lerp
    norm_num
  have hrecv1 := recvState_R_pos (1 / 10) (by norm_num)
  have hrecv3 := recvState_R_pos (3 / 10) (by norm_num)
  obtain ⟨_, _, hrec1⟩ := ball_position_first_pass recvState trivialTD
    ⟨0, 0⟩ "H1" passArrow30 [] [] (1 / 10) 10 0 "R"
  obtain ⟨_, _, hrec3⟩ := ball_position_first_pass recvState trivialTD
    ⟨0, 0⟩ "H1" passArrow30 [] [] (3 / 10) 10 0 "R"
  have hball1 : calcBallPositionWithSpeed recvState trivialTD ⟨0, 0⟩ "H1"
      [passArrow30] (1 / 10) 10 0 = ⟨53 / 2, 0⟩ := by
    have h := (hrec1 rfl).1 (by rw [hratio]; norm_num)
    rw [h, hpasser, hrecv1, hratio]
    unfold lerp
    norm_num
  have hball3 : calcBallPositionWithSpeed recvState trivialTD ⟨0, 0⟩ "H1"
      [passArrow30] (3 / 10) 10 0 = ⟨50, 0⟩ := by
    have h := (hrec3 rfl).2 (by rw [hratio]; norm_num)
    rw [h, hrecv3]
  exact ⟨rfl, hratio, by norm_num, hpasser, hrecv1, hball1, by norm_num,
    by norm_num, by norm_num, hball3⟩

/-- The receiverless first pass of the C2 counterexample. -/
def passNoRecv : TacticalArrow :=
  { arrow_id := 30, player_id := "H1", action_type := "pass",
    start_pos := ⟨0, 0⟩, end_pos := ⟨30, 0⟩, length := 30,
    associated_frame := 0 }

/-- A second pass that DOES have a receiver. -/
def passWithRecv : TacticalArrow :=
  { arrow_id := 31, player_id := "H2", action_type := "pass",
    start_pos := ⟨0, 0⟩, end_pos := ⟨30, 0⟩, length := 30,
    associated_frame := 0, receiver_id := some "R" }

/-- A manager state in which receiver "R" has one simulated sample (5, 5). -/
def twoPassState : SimState :=
  { home_ids := ["H1", "H2"], away_ids := ["R"],
    tactical_arrows := [passNoRecv, passWithRecv],
    ball_possession_chain := [],
    player_associations := fun _ => none, pass_receivers := fun _ => none,
    simulated_player_positions := fun p =>
      if p = "R" then [(5, 5, 0)] else [],
    simulated_ball_positions := [] }

/-- C2 counterexample: a pass with a receiver exists (the second one), and
progress 9/10 lies beyond every possible duration ratio (ratio ≤ 8/10),
so the claim requires the ball to sit at the receiver's position (5, 5).
But the FIRST pass lacks a receiver, so
`_calculate_ball_position_with_speed` returns the initial ball position
(1000, 1000) instead — later passes are ignored entirely. -/
theorem ball_position_first_pass_counterexample :
    passNoRecv.receiver_id = none ∧
    passWithRecv.receiver_id = some "R" ∧
    (8 / 10 : ℚ) < 9 / 10 ∧
    calcBallPositionWithSpeed twoPassState trivialTD ⟨1000, 1000⟩ "H1"
      [passNoRecv, passWithRecv] (9 / 10) 10 0 = ⟨1000, 1000⟩ ∧
    getPlayerPositionAtProgress twoPassState trivialTD "R" (9 / 10) 10 0 =
      ⟨5, 5⟩ ∧
    (⟨1000, 1000⟩ : Point) ≠ (⟨5, 5⟩ : Point) := by
  have hrecv : getPlayerPositionAtProgress twoPassState trivialTD "R"
      (9 / 10) 10 0 = ⟨5, 5⟩ := by
    unfold getPlayerPositionAtProgress
    rw [show twoPassState.simulated_player_positions "R" =
      [((5 : ℚ), (5 : ℚ), (0 : ℤ))] from rfl]
    rw [if_pos (by simp : ([((5 : ℚ), (5 : ℚ), (0 : ℤ))] :
      List (ℚ × ℚ × ℤ)) ≠ [])]
    have hlen : (([((5 : ℚ), (5 : ℚ), (0 : ℤ))] :
        List (ℚ × ℚ × ℤ)).length : ℤ) - 1 = 0 := rfl
    rw [hlen]
    rw [show (9 / 10 : ℚ) * ((0 : ℤ) : ℚ) = 0 from by norm_num]
    rw [show pyInt 0 = 0 from by
      unfold pyInt; rw [if_pos le_rfl]; exact Int.floor_zero]
    rw [min_self]
    rfl
  refine ⟨rfl, rfl, by norm_num, rfl, hrecv, ?_⟩
  intro hcontra
  exact absurd (congrArg Point.x hcontra) (by norm_num)

lemma processArrowsOneFrame_length (progress interval_seconds : ℚ)
    (current_sim_frame : ℤ) :
    ∀ (ts : List TacticalArrow) (pm : String → List (ℚ × ℚ × ℤ)) (p : String),
      (processArrowsOneFrame ts progress interval_seconds current_sim_frame
          pm p).length =
        (pm p).length + ts.countP (fun ta => decide (ta.player_id = p))
  | [], pm, p => by simp [processArrowsOneFrame]
  | ta :: rest, pm, p => by
      rw [show processArrowsOneFrame (ta :: rest) progress interval_seconds
          current_sim_frame pm =
        processArrowsOneFrame rest progress interval_seconds current_sim_frame
          (fun q =>
            if q = ta.player_id then
              pm q ++ [((calcPlayerPositionWithSpeed ta progress
                interval_seconds).x,
                (calcPlayerPositionWithSpeed ta progress interval_seconds).y,
                current_sim_frame)]
            else pm q) from rfl]
      rw [processArrowsOneFrame_length progress interval_seconds
        current_sim_frame rest _ p]
      rw [List.countP_cons]
      by_cases h : p = ta.player_id
      · rw [if_pos h,
          show (decide (ta.player_id = p)) = true from by
            rw [decide_eq_true_eq]; exact h.symm]
        rw [show (if (true = true) then 1 else 0) = 1 from rfl]
        rw [List.length_append, List.length_singleton]
        omega
      · rw [if_neg h,
          show (decide (ta.player_id = p)) = false from by
            rw [decide_eq_false_iff_not]; exact fun hc => h hc.symm]
        rw [show (if (false = true) then 1 else 0) = 0 from rfl]
        omega

lemma simFrameBody_arrows (td : TrackingData) (passes : List TacticalArrow)
    (ballInfo : Option (Point × String)) (interval_seconds : ℚ)
    (current_frame total_frames : ℤ) (st : SimState) (k : ℕ) :
    (simFrameBody td passes ballInfo interval_seconds current_frame
      total_frames st k).tactical_arrows = st.tactical_arrows := by
  unfold simFrameBody
  cases ballInfo <;> rfl

lemma simFrameBody_player_length (td : TrackingData)
    (passes : List TacticalArrow) (ballInfo : Option (Point × String))
    (interval_seconds : ℚ) (current_frame total_frames : ℤ) (st : SimState)
    (k : ℕ) (p : String) :
    ((simFrameBody td passes ballInfo interval_seconds current_frame
        total_frames st k).simulated_player_positions p).length =
      (st.simulated_player_positions p).length +
        st.tactical_arrows.countP (fun ta => decide (ta.player_id = p)) := by
  unfold simFrameBody
  cases ballInfo with
  | none =>
      exact processArrowsOneFrame_length _ _ _ st.tactical_arrows _ p
  | some bi =>
      exact processArrowsOneFrame_length _ _ _ st.tactical_arrows _ p

lemma simFrameBody_ball_none (td : TrackingData) (passes : List TacticalArrow)
    (interval_seconds : ℚ) (current_frame total_frames : ℤ) (st : SimState)
    (k : ℕ) :
    (simFrameBody td passes none interval_seconds current_frame total_frames
      st k).simulated_ball_positions = st.simulated_ball_positions := rfl

lemma simLoopFold_player_length (td : TrackingData)
    (passes : List TacticalArrow) (ballInfo : Option (Point × String))
    (interval_seconds : ℚ) (current_frame total_frames : ℤ) :
    ∀ (l : List ℕ) (st : SimState) (p : String),
      ((l.foldl (simFrameBody td passes ballInfo interval_seconds
          current_frame total_frames) st).simulated_player_positions p).length
        =
        (st.simulated_player_positions p).length +
          st.tactical_arrows.countP (fun ta => decide (ta.player_id = p)) *
            l.length
  | [], st, p => by simp
  | k :: rest, st, p => by
      rw [List.foldl_cons,
        simLoopFold_player_length td passes ballInfo interval_seconds
          current_frame total_frames rest _ p,
        simFrameBody_player_length, simFrameBody_arrows, List.length_cons]
      ring

lemma simLoopFold_ball_none (td : TrackingData) (passes : List TacticalArrow)
    (interval_seconds : ℚ) (current_frame total_frames : ℤ) :
    ∀ (l : List ℕ) (st : SimState),
      (l.foldl (simFrameBody td passes none interval_seconds current_frame
        total_frames) st).simulated_ball_positions =
        st.simulated_ball_positions
  | [], st => rfl
  | k :: rest, st => by
      rw [List.foldl_cons,
        simLoopFold_ball_none td passes interval_seconds current_frame
          total_frames rest _,
        simFrameBody_ball_none]

/-- The optional (ball position, holder) pair that gates ball simulation
in `calculate_simulated_trajectories`. -/
def ballInfoOf (st : SimState) (td : TrackingData) (current_frame : ℤ) :
    Option (Point × String) :=
  match ballStartPos td current_frame with
  | none => none
  | some bp =>
      match findClosestPlayerToBall st td bp current_frame with
      | none => none
      | some h => some (bp, h)

lemma calculate_eq_loop (st : SimState) (td : TrackingData)
    (interval_seconds : ℚ) (current_frame : ℤ)
    (h : ¬st.tactical_arrows = []) :
    calculate_simulated_trajectories st td interval_seconds current_frame =
      simFrameLoop td
        (st.tactical_arrows.filter (fun ta => ta.action_type = "pass"))
        (ballInfoOf st td current_frame) interval_seconds current_frame
        (pyInt (interval_seconds * FPS))
        { st with simulated_player_positions := fun _ => []
                  simulated_ball_positions := [] } := by
  unfold calculate_simulated_trajectories ballInfoOf
  simp only []
  rw [if_neg h]
  cases hbp : ballStartPos td current_frame with
  | none => rfl
  | some bp =>
      simp only []
      rw [show findClosestPlayerToBall
          { st with
            simulated_player_positions := fun _ => ([] : List (ℚ × ℚ × ℤ)),
            simulated_ball_positions := ([] : List (ℚ × ℚ × ℤ)) }
          td bp current_frame =
          findClosestPlayerToBall st td bp current_frame from rfl]
      cases hfc : findClosestPlayerToBall st td bp current_frame with
      | none => rfl
      | some holder => rfl

/-- C9 (amended): `calculate_simulated_trajectories` rebuilds both outputs
from scratch on every call (with no tactical arrows both outputs are
empty regardless of prior state); whenever the real ball position at the
start frame is unavailable (row missing, too short, or NaN x) or no
nearest ball holder exists, the simulated ball list stays empty for the
whole run, while the simulated player lists still receive, per frame, one
sample per TacticalArrow covering the player — a player associated with k
arrows gets k samples per frame, `totalFrames = int(intervalSeconds*FPS)`
frames in all. -/
theorem simulated_trajectories_ball_unavailable (st : SimState)
    (td : TrackingData) (interval_seconds : ℚ) (current_frame : ℤ) :
    (st.tactical_arrows = [] →
      (calculate_simulated_trajectories st td interval_seconds
        current_frame).simulated_player_positions = (fun _ => []) ∧
      (calculate_simulated_trajectories st td interval_seconds
        current_frame).simulated_ball_positions = []) ∧
    (ballInfoOf st td current_frame = none →
      (calculate_simulated_trajectories st td interval_seconds
        current_frame).simulated_ball_positions = []) ∧
    ((ballStartPos td current_frame = none ∨
        ∀ bp, findClosestPlayerToBall st td bp current_frame = none) →
      ballInfoOf st td current_frame = none) ∧
    (¬st.tactical_arrows = [] → ∀ p,
      ((calculate_simulated_trajectories st td interval_seconds
          current_frame).simulated_player_positions p).length =
        st.tactical_arrows.countP (fun ta => decide (ta.player_id = p)) *
          (pyInt (interval_seconds * FPS)).toNat) := by
  refine ⟨fun harrows => ?_, fun hinfo => ?_, fun hball => ?_, fun harrows p => ?_⟩
  · unfold calculate_simulated_trajectories
    simp only []
    rw [if_pos harrows]
    exact ⟨rfl, rfl⟩
  · by_cases harrows : st.tactical_arrows = []
    · unfold calculate_simulated_trajectories
      simp only []
      rw [if_pos harrows]
    · rw [calculate_eq_loop st td interval_seconds current_frame harrows,
        hinfo]
      unfold simFrameLoop
      rw [simLoopFold_ball_none]
  · unfold ballInfoOf
    rcases hball with hnone | hall
    · rw [hnone]
    · cases hbp : ballStartPos td current_frame with
      | none => rfl
      | some bp =>
          simp only []
          rw [hall bp]
  · rw [calculate_eq_loop st td interval_seconds current_frame harrows]
    unfold simFrameLoop
    rw [simLoopFold_player_length]
    simp [List.length_range]

/-- A "run" arrow (id 1) for player P, for the C9 counterexample. -/
def runA : TacticalArrow :=
  { arrow_id := 1, player_id := "P", action_type := "run",
    start_pos := ⟨0, 0⟩, end_pos := ⟨10, 0⟩, length := 10,
    associated_frame := 0 }

/-- A second "run" arrow (id 2) for the same player P. -/
def runB : TacticalArrow :=
  { arrow_id := 2, player_id := "P", action_type := "run",
    start_pos := ⟨0, 0⟩, end_pos := ⟨10, 0⟩, length := 10,
    associated_frame := 0 }

/-- A state in which player P is covered by TWO tactical arrows. -/
def twoArrowState : SimState :=
  { home_ids := [], away_ids := [],
    tactical_arrows := [runA, runB], ball_possession_chain := [],
    player_associations := fun _ => none, pass_receivers := fun _ => none,
    simulated_player_positions := fun _ => [],
    simulated_ball_positions := [] }

lemma twoArrow_total_frames : pyInt ((2 / 25 : ℚ) * FPS) = 2 := by
  unfold FPS pyInt
  rw [show (2 / 25 : ℚ) * 25 = ((2 : ℤ) : ℚ) from by push_cast; norm_num]
  rw [if_pos (by positivity)]
  exact Int.floor_intCast 2

/-- C9 counterexample: with the ball row unavailable and player P covered
by two run arrows over a 2-frame window, the simulated ball list is empty
(as the claim says) but P receives 4 samples — two per frame — not the
claimed one sample per frame (which would give 2). -/
theorem simulated_trajectories_two_arrows_counterexample :
    ballStartPos trivialTD 0 = none ∧
    (pyInt ((2 / 25 : ℚ) * FPS)).toNat = 2 ∧
    (calculate_simulated_trajectories twoArrowState trivialTD (2 / 25)
      0).simulated_ball_positions = [] ∧
    ((calculate_simulated_trajectories twoArrowState trivialTD (2 / 25)
      0).simulated_player_positions "P").length = 4 ∧
    ¬((4 : ℕ) = 2) := by
  have harrows : ¬twoArrowState.tactical_arrows = [] := by
    rw [show twoArrowState.tactical_arrows = [runA, runB] from rfl]
    simp
  have hloop := calculate_eq_loop twoArrowState trivialTD (2 / 25) 0 harrows
  have hinfo : ballInfoOf twoArrowState trivialTD 0 = none := rfl
  refine ⟨rfl, by rw [twoArrow_total_frames]; rfl, ?_, ?_, by norm_num⟩
  · rw [hloop, hinfo]
    unfold simFrameLoop
    rw [simLoopFold_ball_none]
  · rw [hloop]
    unfold simFrameLoop
    rw [simLoopFold_player_length]
    rw [twoArrow_total_frames]
    rfl

/-- C9 witness: instantiating the amended theorem on the two-arrow state
with unavailable ball data: the ball list is empty and P's sample count is
(number of covering arrows) × totalFrames = 2 × 2 = 4. -/
theorem simulated_trajectories_ball_unavailable_witness :
    (calculate_simulated_trajectories twoArrowState trivialTD (2 / 25)
      0).simulated_ball_positions = [] ∧
    ((calculate_simulated_trajectories twoArrowState trivialTD (2 / 25)
        0).simulated_player_positions "P").length =
      (twoArrowState.tactical_arrows.countP
          (fun ta => decide (ta.player_id = "P"))) *
        (pyInt ((2 / 25 : ℚ) * FPS)).toNat := by
  obtain ⟨_, hball, hbi, hlen⟩ :=
    simulated_trajectories_ball_unavailable twoArrowState trivialTD (2 / 25) 0
  exact ⟨hball (hbi (Or.inl rfl)), hlen (by
    rw [show twoArrowState.tactical_arrows = [runA, runB] from rfl]; simp) "P"⟩

end FootballTactics
